import Mathlib

/-!
Verification of the x402 payment-interceptor core (header factory, fetch
interceptor, signing-source resolver) against its natural-language
specification.

The development shallowly embeds the three source modules:

* `header-factory.ts` — payment-header cache and signature orchestration
  (`getHeader`, `invalidate`, `updateConfig`, `encodePaymentPayload`,
  `decodePaymentPayload`, `buildPaymentPayload`, `isNearDeadline`);
* `client.ts` — the fetch interceptor (`wrappedFetch`, error
  classification, `applyPaymentRequirement`, requirement cap extraction);
* `signature-sources.ts` — the `env_pk` signing function's deadline
  computation.

Conventions of the embedding:

* JavaScript strings are Lean `String`s; `a || b` on possibly-undefined
  strings is `jsOrD` (empty string and `undefined` are falsy);
* Unix-seconds clocks and deadlines are `Int`; each operation that reads
  `Date.now()` takes the current time as an explicit argument;
* the asynchronous signature function is a pure function parameter, and
  operations report the exact `SignatureInput` they passed to it (if any),
  so that "the signing function is invoked" is observable;
* `Buffer.from(JSON.stringify(p)).toString('base64')` is modelled by a
  concrete JSON printer for the fixed payload shape, UTF-8 byte encoding,
  and RFC 4648 base64; the inverse (`Buffer.from(s,'base64')` + JSON.parse)
  by the corresponding strict decoders returning `Option`.
-/

/-! ## Character helper -/

/-- Rebuilding a character from its scalar value is the identity. -/
theorem charOfNat_toNat (c : Char) : Char.ofNat c.toNat = c := by
  have h : c.toNat.isValidChar := c.valid
  unfold Char.ofNat
  rw [dif_pos h]
  apply Char.eq_of_val_eq
  apply UInt32.eq_of_toBitVec_eq
  show BitVec.ofNatLt c.toNat _ = c.val.toBitVec
  apply BitVec.eq_of_toNat_eq
  simp [BitVec.toNat_ofNatLt, Char.toNat, UInt32.toNat]

/-! ## Base64 (RFC 4648), as used by Buffer base64 encode/decode -/

def b64Chars : List Char :=
  ['A','B','C','D','E','F','G','H','I','J','K','L','M','N','O','P','Q','R','S','T','U','V','W','X','Y','Z',
   'a','b','c','d','e','f','g','h','i','j','k','l','m','n','o','p','q','r','s','t','u','v','w','x','y','z',
   '0','1','2','3','4','5','6','7','8','9','+','/']

def encB64 (n : Nat) : Char := b64Chars.getD n 'A'

def decB64Aux : List Char → Nat → Char → Option Nat
  | [], _, _ => none
  | a :: as, i, c => if c = a then some i else decB64Aux as (i + 1) c

def decB64 (c : Char) : Option Nat := decB64Aux b64Chars 0 c

theorem decB64_encB64 (n : Nat) (h : n < 64) : decB64 (encB64 n) = some n := by
  revert n h
  decide

theorem encB64_eq_eq_false (n : Nat) (h : n < 64) : (encB64 n = '=') = False := by
  revert n h
  decide

def b64encodeBytes : List Nat → List Char
  | [] => []
  | [b1] => [encB64 (b1 / 4), encB64 (b1 % 4 * 16), '=', '=']
  | [b1, b2] => [encB64 (b1 / 4), encB64 (b1 % 4 * 16 + b2 / 16), encB64 (b2 % 16 * 4), '=']
  | b1 :: b2 :: b3 :: rest =>
      encB64 (b1 / 4) :: encB64 (b1 % 4 * 16 + b2 / 16) ::
        encB64 (b2 % 16 * 4 + b3 / 64) :: encB64 (b3 % 64) :: b64encodeBytes rest

def b64decodeChars : List Char → Option (List Nat)
  | [] => some []
  | c1 :: c2 :: c3 :: c4 :: rest =>
    match decB64 c1, decB64 c2 with
    | some s1, some s2 =>
      if c3 = '=' then
        if c4 = '=' ∧ rest = [] then some [s1 * 4 + s2 / 16] else none
      else
        match decB64 c3 with
        | some s3 =>
          if c4 = '=' then
            if rest = [] then some [s1 * 4 + s2 / 16, s2 % 16 * 16 + s3 / 4] else none
          else
            match decB64 c4 with
            | some s4 =>
              (b64decodeChars rest).map (fun tl =>
                (s1 * 4 + s2 / 16) :: (s2 % 16 * 16 + s3 / 4) :: (s3 % 4 * 64 + s4) :: tl)
            | none => none
        | none => none
    | _, _ => none
  | _ => none

theorem b64_roundtrip : (bs : List Nat) → (∀ b ∈ bs, b < 256) →
    b64decodeChars (b64encodeBytes bs) = some bs
  | [], _ => rfl
  | [b1], h => by
    have hb1 : b1 < 256 := h b1 (by simp)
    have h1 : b1 / 4 < 64 := by omega
    have h2 : b1 % 4 * 16 < 64 := by omega
    simp only [b64encodeBytes, b64decodeChars, decB64_encB64 _ h1, decB64_encB64 _ h2,
      if_true, and_self, ite_true, Option.some.injEq, List.cons.injEq, and_true, List.nil_eq,
      eq_self_iff_true]
    omega
  | [b1, b2], h => by
    have hb1 : b1 < 256 := h b1 (by simp)
    have hb2 : b2 < 256 := h b2 (by simp)
    have h1 : b1 / 4 < 64 := by omega
    have h2 : b1 % 4 * 16 + b2 / 16 < 64 := by omega
    have h3 : b2 % 16 * 4 < 64 := by omega
    simp only [b64encodeBytes, b64decodeChars, decB64_encB64 _ h1, decB64_encB64 _ h2,
      decB64_encB64 _ h3, encB64_eq_eq_false _ h3, if_false, ite_false, if_true, ite_true,
      eq_self_iff_true, Option.some.injEq, List.cons.injEq, and_true, List.nil_eq]
    constructor
    · omega
    · omega
  | b1 :: b2 :: b3 :: b4 :: rest, h => by
    have hb1 : b1 < 256 := h b1 (by simp)
    have hb2 : b2 < 256 := h b2 (by simp)
    have hb3 : b3 < 256 := h b3 (by simp)
    have h1 : b1 / 4 < 64 := by omega
    have h2 : b1 % 4 * 16 + b2 / 16 < 64 := by omega
    have h3 : b2 % 16 * 4 + b3 / 64 < 64 := by omega
    have h4 : b3 % 64 < 64 := by omega
    have ih := b64_roundtrip (b4 :: rest) (by
      intro b hb
      exact h b (by simp [List.mem_cons] at hb ⊢; tauto))
    simp only [b64encodeBytes, b64decodeChars, decB64_encB64 _ h1, decB64_encB64 _ h2,
      decB64_encB64 _ h3, decB64_encB64 _ h4, encB64_eq_eq_false _ h3, encB64_eq_eq_false _ h4,
      if_false, ite_false, ih, Option.map_some, Option.some.injEq, List.cons.injEq]
    simp only [Option.map_some', Option.some.injEq, List.cons.injEq]
    refine ⟨by omega, by omega, by omega, trivial⟩
  | [b1, b2, b3], h => by
    have hb1 : b1 < 256 := h b1 (by simp)
    have hb2 : b2 < 256 := h b2 (by simp)
    have hb3 : b3 < 256 := h b3 (by simp)
    have h1 : b1 / 4 < 64 := by omega
    have h2 : b1 % 4 * 16 + b2 / 16 < 64 := by omega
    have h3 : b2 % 16 * 4 + b3 / 64 < 64 := by omega
    have h4 : b3 % 64 < 64 := by omega
    simp only [b64encodeBytes, b64decodeChars, decB64_encB64 _ h1, decB64_encB64 _ h2,
      decB64_encB64 _ h3, decB64_encB64 _ h4, encB64_eq_eq_false _ h3, encB64_eq_eq_false _ h4,
      if_false, ite_false, Option.map_some, Option.some.injEq, List.cons.injEq]
    simp only [Option.map_some', Option.some.injEq, List.cons.injEq]
    refine ⟨by omega, by omega, by omega, trivial⟩

/-! ## UTF-8 bytes of a character list -/

def utf8EncodeChar (c : Char) : List Nat :=
  if c.toNat < 128 then [c.toNat]
  else if c.toNat < 2048 then [192 + c.toNat / 64, 128 + c.toNat % 64]
  else if c.toNat < 65536 then
    [224 + c.toNat / 4096, 128 + c.toNat / 64 % 64, 128 + c.toNat % 64]
  else
    [240 + c.toNat / 262144, 128 + c.toNat / 4096 % 64, 128 + c.toNat / 64 % 64,
      128 + c.toNat % 64]

def utf8EncodeList : List Char → List Nat
  | [] => []
  | c :: cs => utf8EncodeChar c ++ utf8EncodeList cs

def isCont (b : Nat) : Bool := 128 ≤ b && b < 192

def utf8DecodeTail2 (b : Nat) : List Nat → Option (Char × List Nat)
  | b2 :: rest2 =>
    if isCont b2 then some (Char.ofNat ((b - 192) * 64 + (b2 - 128)), rest2) else none
  | [] => none

def utf8DecodeTail3 (b : Nat) : List Nat → Option (Char × List Nat)
  | b2 :: b3 :: rest2 =>
    if isCont b2 && isCont b3 then
      some (Char.ofNat ((b - 224) * 4096 + (b2 - 128) * 64 + (b3 - 128)), rest2)
    else none
  | _ => none

def utf8DecodeTail4 (b : Nat) : List Nat → Option (Char × List Nat)
  | b2 :: b3 :: b4 :: rest2 =>
    if isCont b2 && isCont b3 && isCont b4 then
      some (Char.ofNat ((b - 240) * 262144 + (b2 - 128) * 4096 + (b3 - 128) * 64 + (b4 - 128)),
        rest2)
    else none
  | _ => none

def utf8DecodeOne : List Nat → Option (Char × List Nat)
  | [] => none
  | b :: rest =>
    if b < 128 then some (Char.ofNat b, rest)
    else if b < 192 then none
    else if b < 224 then utf8DecodeTail2 b rest
    else if b < 240 then utf8DecodeTail3 b rest
    else if b < 248 then utf8DecodeTail4 b rest
    else none

theorem utf8DecodeTail2_length {b : Nat} {l rest : List Nat} {c : Char}
    (h : utf8DecodeTail2 b l = some (c, rest)) : rest.length < l.length := by
  match l with
  | [] => simp [utf8DecodeTail2] at h
  | b2 :: rest2 =>
    simp only [utf8DecodeTail2] at h
    split at h
    · injection h with h1
      have h2 : rest2 = rest := congrArg Prod.snd h1
      subst h2
      simp only [List.length_cons]
      omega
    · cases h

theorem utf8DecodeTail3_length {b : Nat} {l rest : List Nat} {c : Char}
    (h : utf8DecodeTail3 b l = some (c, rest)) : rest.length < l.length := by
  match l with
  | [] => simp [utf8DecodeTail3] at h
  | [b2] => simp [utf8DecodeTail3] at h
  | b2 :: b3 :: rest2 =>
    simp only [utf8DecodeTail3] at h
    split at h
    · injection h with h1
      have h2 : rest2 = rest := congrArg Prod.snd h1
      subst h2
      simp only [List.length_cons]
      omega
    · cases h

theorem utf8DecodeTail4_length {b : Nat} {l rest : List Nat} {c : Char}
    (h : utf8DecodeTail4 b l = some (c, rest)) : rest.length < l.length := by
  match l with
  | [] => simp [utf8DecodeTail4] at h
  | [b2] => simp [utf8DecodeTail4] at h
  | [b2, b3] => simp [utf8DecodeTail4] at h
  | b2 :: b3 :: b4 :: rest2 =>
    simp only [utf8DecodeTail4] at h
    split at h
    · injection h with h1
      have h2 : rest2 = rest := congrArg Prod.snd h1
      subst h2
      simp only [List.length_cons]
      omega
    · cases h

theorem utf8DecodeOne_length {l rest : List Nat} {c : Char}
    (h : utf8DecodeOne l = some (c, rest)) : rest.length < l.length := by
  match l with
  | [] => simp [utf8DecodeOne] at h
  | b :: rest0 =>
    simp only [utf8DecodeOne] at h
    split_ifs at h
    · injection h with h1
      have h2 : rest0 = rest := congrArg Prod.snd h1
      subst h2
      simp only [List.length_cons]
      omega
    · exact Nat.lt_trans (utf8DecodeTail2_length h) (by simp)
    · exact Nat.lt_trans (utf8DecodeTail3_length h) (by simp)
    · exact Nat.lt_trans (utf8DecodeTail4_length h) (by simp)

def utf8Decode (l : List Nat) : Option (List Char) :=
  match l with
  | [] => some []
  | b :: rest0 =>
    match h : utf8DecodeOne (b :: rest0) with
    | some (c, rest) => (utf8Decode rest).map (fun cs => c :: cs)
    | none => none
termination_by l.length
decreasing_by exact utf8DecodeOne_length h

theorem utf8Decode_nil : utf8Decode [] = some [] := by
  rw [utf8Decode]

theorem utf8Decode_step {l : List Nat} {c : Char} {rest : List Nat}
    (h : utf8DecodeOne l = some (c, rest)) :
    utf8Decode l = (utf8Decode rest).map (fun cs => c :: cs) := by
  match l with
  | [] => simp [utf8DecodeOne] at h
  | b :: rest0 =>
    rw [utf8Decode]
    split
    · next c' rest' h' =>
      rw [h] at h'
      injection h' with h1
      rw [show c' = c from (congrArg Prod.fst h1).symm,
        show rest' = rest from (congrArg Prod.snd h1).symm]
    · next h' =>
      rw [h] at h'
      cases h'

theorem utf8EncodeChar_lt256 (c : Char) : ∀ b ∈ utf8EncodeChar c, b < 256 := by
  intro b hb
  have hv : c.toNat < 55296 ∨ 57343 < c.toNat ∧ c.toNat < 1114112 := c.valid
  unfold utf8EncodeChar at hb
  split_ifs at hb <;>
    simp only [List.mem_cons, List.mem_singleton, List.not_mem_nil, or_false] at hb <;>
    omega

theorem utf8DecodeOne_encodeChar (c : Char) (rest : List Nat) :
    utf8DecodeOne (utf8EncodeChar c ++ rest) = some (c, rest) := by
  have hval : c.toNat < 55296 ∨ 57343 < c.toNat ∧ c.toNat < 1114112 := c.valid
  by_cases h1 : c.toNat < 128
  · rw [show utf8EncodeChar c = [c.toNat] by rw [utf8EncodeChar, if_pos h1]]
    simp only [List.cons_append, List.nil_append, utf8DecodeOne, if_pos h1, charOfNat_toNat]
  · by_cases h2 : c.toNat < 2048
    · rw [show utf8EncodeChar c = [192 + c.toNat / 64, 128 + c.toNat % 64] by
        rw [utf8EncodeChar, if_neg h1, if_pos h2]]
      simp only [List.cons_append, List.nil_append, utf8DecodeOne]
      rw [if_neg (by omega), if_neg (by omega), if_pos (by omega)]
      simp only [utf8DecodeTail2]
      rw [if_pos (by simp [isCont]; omega)]
      have he : (192 + c.toNat / 64 - 192) * 64 + (128 + c.toNat % 64 - 128) = c.toNat := by omega
      rw [he, charOfNat_toNat]
    · by_cases h3 : c.toNat < 65536
      · rw [show utf8EncodeChar c =
            [224 + c.toNat / 4096, 128 + c.toNat / 64 % 64, 128 + c.toNat % 64] by
          rw [utf8EncodeChar, if_neg h1, if_neg h2, if_pos h3]]
        simp only [List.cons_append, List.nil_append, utf8DecodeOne]
        rw [if_neg (by omega), if_neg (by omega), if_neg (by omega), if_pos (by omega)]
        simp only [utf8DecodeTail3]
        rw [if_pos (by simp [isCont]; omega)]
        have he : (224 + c.toNat / 4096 - 224) * 4096 + (128 + c.toNat / 64 % 64 - 128) * 64 +
            (128 + c.toNat % 64 - 128) = c.toNat := by omega
        rw [he, charOfNat_toNat]
      · rw [show utf8EncodeChar c =
            [240 + c.toNat / 262144, 128 + c.toNat / 4096 % 64, 128 + c.toNat / 64 % 64,
              128 + c.toNat % 64] by
          rw [utf8EncodeChar, if_neg h1, if_neg h2, if_neg h3]]
        simp only [List.cons_append, List.nil_append, utf8DecodeOne]
        rw [if_neg (by omega), if_neg (by omega), if_neg (by omega), if_neg (by omega),
          if_pos (by omega)]
        simp only [utf8DecodeTail4]
        rw [if_pos (by simp [isCont]; omega)]
        have he : (240 + c.toNat / 262144 - 240) * 262144 +
            (128 + c.toNat / 4096 % 64 - 128) * 4096 +
            (128 + c.toNat / 64 % 64 - 128) * 64 + (128 + c.toNat % 64 - 128) = c.toNat := by omega
        rw [he, charOfNat_toNat]

theorem utf8_roundtrip (s : List Char) : utf8Decode (utf8EncodeList s) = some s := by
  induction s with
  | nil => exact utf8Decode_nil
  | cons c cs ih =>
    rw [show utf8EncodeList (c :: cs) = utf8EncodeChar c ++ utf8EncodeList cs from rfl]
    rw [utf8Decode_step (utf8DecodeOne_encodeChar c (utf8EncodeList cs)), ih]
    rfl

theorem utf8EncodeList_lt256 (s : List Char) : ∀ b ∈ utf8EncodeList s, b < 256 := by
  induction s with
  | nil => intro b hb; simp [utf8EncodeList] at hb
  | cons c cs ih =>
    intro b hb
    rw [show utf8EncodeList (c :: cs) = utf8EncodeChar c ++ utf8EncodeList cs from rfl] at hb
    rcases List.mem_append.mp hb with h | h
    · exact utf8EncodeChar_lt256 c b h
    · exact ih b h

/-! ## JSON string escaping (JSON.stringify) and its parser -/

def hexDigitChar (n : Nat) : Char :=
  if n < 10 then Char.ofNat (48 + n) else Char.ofNat (87 + n)

def escapeChar (c : Char) : List Char :=
  if c = '"' then ['\\', '"']
  else if c = '\\' then ['\\', '\\']
  else if c = Char.ofNat 8 then ['\\', 'b']
  else if c = Char.ofNat 9 then ['\\', 't']
  else if c = Char.ofNat 10 then ['\\', 'n']
  else if c = Char.ofNat 12 then ['\\', 'f']
  else if c = Char.ofNat 13 then ['\\', 'r']
  else if c.toNat < 32 then
    ['\\', 'u', '0', '0', hexDigitChar (c.toNat / 16), hexDigitChar (c.toNat % 16)]
  else [c]

def escapeList : List Char → List Char
  | [] => []
  | c :: cs => escapeChar c ++ escapeList cs

def hexVal (c : Char) : Option Nat :=
  if '0' ≤ c ∧ c ≤ '9' then some (c.toNat - 48)
  else if 'a' ≤ c ∧ c ≤ 'f' then some (c.toNat - 87)
  else if 'A' ≤ c ∧ c ≤ 'F' then some (c.toNat - 55)
  else none

def unescapeChar (e : Char) : Option Char :=
  if e = '"' then some '"'
  else if e = '\\' then some '\\'
  else if e = '/' then some '/'
  else if e = 'b' then some (Char.ofNat 8)
  else if e = 't' then some (Char.ofNat 9)
  else if e = 'n' then some (Char.ofNat 10)
  else if e = 'f' then some (Char.ofNat 12)
  else if e = 'r' then some (Char.ofNat 13)
  else none

def parseUEscape : List Char → Option (Char × List Char)
  | h1 :: h2 :: h3 :: h4 :: rest3 =>
    match hexVal h1, hexVal h2, hexVal h3, hexVal h4 with
    | some v1, some v2, some v3, some v4 =>
      some (Char.ofNat (v1 * 4096 + v2 * 256 + v3 * 16 + v4), rest3)
    | _, _, _, _ => none
  | _ => none

def parseEscape : List Char → Option (Char × List Char)
  | [] => none
  | e :: rest2 =>
    if e = 'u' then parseUEscape rest2
    else (unescapeChar e).map (fun u => (u, rest2))

theorem parseUEscape_length {l rest : List Char} {u : Char}
    (h : parseUEscape l = some (u, rest)) : rest.length < l.length := by
  match l with
  | [] => cases h
  | [h1] => cases h
  | [h1, h2] => cases h
  | [h1, h2, h3] => cases h
  | h1 :: h2 :: h3 :: h4 :: rest3 =>
    simp only [parseUEscape] at h
    split at h
    · injection h with h1'
      have h2' : rest3 = rest := congrArg Prod.snd h1'
      subst h2'
      simp only [List.length_cons]
      omega
    · cases h

theorem parseEscape_length {l rest : List Char} {u : Char}
    (h : parseEscape l = some (u, rest)) : rest.length < l.length := by
  match l with
  | [] => cases h
  | e :: rest2 =>
    simp only [parseEscape] at h
    split_ifs at h
    · exact Nat.lt_trans (parseUEscape_length h) (by simp)
    · match hu : unescapeChar e with
      | some u' =>
        rw [hu] at h
        injection h with h1'
        have h2' : rest2 = rest := congrArg Prod.snd h1'
        subst h2'
        simp only [List.length_cons]
        omega
      | none => rw [hu] at h; cases h

def parseStringBody (l : List Char) : Option (List Char × List Char) :=
  match l with
  | [] => none
  | c :: rest =>
    if c = '"' then some ([], rest)
    else if c = '\\' then
      match h : parseEscape rest with
      | some (u, rest2) =>
        (parseStringBody rest2).map (fun pr => (u :: pr.fst, pr.snd))
      | none => none
    else
      (parseStringBody rest).map (fun pr => (c :: pr.fst, pr.snd))
termination_by l.length
decreasing_by
  · exact Nat.lt_trans (parseEscape_length h) (by simp)
  · simp

theorem parseStringBody_quote (rest : List Char) :
    parseStringBody ('"' :: rest) = some ([], rest) := by
  rw [parseStringBody, if_pos rfl]

theorem parseStringBody_escape {rest : List Char} {u : Char} {rest2 : List Char}
    (h : parseEscape rest = some (u, rest2)) :
    parseStringBody ('\\' :: rest) =
      (parseStringBody rest2).map (fun pr => (u :: pr.fst, pr.snd)) := by
  rw [parseStringBody]
  rw [if_neg (by decide), if_pos rfl]
  split
  · next u' r' h' =>
    rw [h] at h'
    injection h' with h1'
    rw [show u' = u from (congrArg Prod.fst h1').symm,
      show r' = rest2 from (congrArg Prod.snd h1').symm]
  · next h' =>
    rw [h] at h'
    cases h'

theorem parseStringBody_plain {c : Char} (rest : List Char) (h1 : ¬(c = '"'))
    (h2 : ¬(c = '\\')) :
    parseStringBody (c :: rest) =
      (parseStringBody rest).map (fun pr => (c :: pr.fst, pr.snd)) := by
  rw [parseStringBody, if_neg h1, if_neg h2]

theorem hexVal_hexDigitChar (d : Nat) (h : d < 16) : hexVal (hexDigitChar d) = some d := by
  revert d h
  decide

theorem parseStringBody_escapeList (s : List Char) (rest : List Char) :
    parseStringBody (escapeList s ++ '"' :: rest) = some (s, rest) := by
  induction s with
  | nil => exact parseStringBody_quote rest
  | cons c cs ih =>
    rw [show escapeList (c :: cs) = escapeChar c ++ escapeList cs from rfl, List.append_assoc]
    by_cases hq : c = '"'
    · subst hq
      rw [show escapeChar '"' = ['\\', '"'] from rfl]
      rw [List.cons_append, List.cons_append, List.nil_append]
      rw [parseStringBody_escape (by rw [parseEscape, if_neg (by decide)]; rfl), ih]
      rfl
    · by_cases hb : c = '\\'
      · subst hb
        rw [show escapeChar '\\' = ['\\', '\\'] from rfl]
        rw [List.cons_append, List.cons_append, List.nil_append]
        rw [parseStringBody_escape (by rw [parseEscape, if_neg (by decide)]; rfl), ih]
        rfl
      · by_cases h8 : c = Char.ofNat 8
        · subst h8
          rw [show escapeChar (Char.ofNat 8) = ['\\', 'b'] from by decide]
          rw [List.cons_append, List.cons_append, List.nil_append]
          rw [parseStringBody_escape (by rw [parseEscape, if_neg (by decide)]; rfl), ih]
          rfl
        · by_cases h9 : c = Char.ofNat 9
          · subst h9
            rw [show escapeChar (Char.ofNat 9) = ['\\', 't'] from by decide]
            rw [List.cons_append, List.cons_append, List.nil_append]
            rw [parseStringBody_escape (by rw [parseEscape, if_neg (by decide)]; rfl), ih]
            rfl
          · by_cases h10 : c = Char.ofNat 10
            · subst h10
              rw [show escapeChar (Char.ofNat 10) = ['\\', 'n'] from by decide]
              rw [List.cons_append, List.cons_append, List.nil_append]
              rw [parseStringBody_escape (by rw [parseEscape, if_neg (by decide)]; rfl), ih]
              rfl
            · by_cases h12 : c = Char.ofNat 12
              · subst h12
                rw [show escapeChar (Char.ofNat 12) = ['\\', 'f'] from by decide]
                rw [List.cons_append, List.cons_append, List.nil_append]
                rw [parseStringBody_escape (by rw [parseEscape, if_neg (by decide)]; rfl), ih]
                rfl
              · by_cases h13 : c = Char.ofNat 13
                · subst h13
                  rw [show escapeChar (Char.ofNat 13) = ['\\', 'r'] from by decide]
                  rw [List.cons_append, List.cons_append, List.nil_append]
                  rw [parseStringBody_escape (by rw [parseEscape, if_neg (by decide)]; rfl), ih]
                  rfl
                · by_cases hc : c.toNat < 32
                  · rw [show escapeChar c =
                        ['\\', 'u', '0', '0', hexDigitChar (c.toNat / 16),
                          hexDigitChar (c.toNat % 16)] from by
                      rw [escapeChar, if_neg hq, if_neg hb, if_neg h8, if_neg h9, if_neg h10,
                        if_neg h12, if_neg h13, if_pos hc]]
                    rw [List.cons_append, List.cons_append, List.cons_append, List.cons_append,
                      List.cons_append, List.cons_append, List.nil_append]
                    have hpe : parseEscape ('u' :: '0' :: '0' :: hexDigitChar (c.toNat / 16) ::
                        hexDigitChar (c.toNat % 16) :: (escapeList cs ++ '"' :: rest)) =
                        some (c, escapeList cs ++ '"' :: rest) := by
                      rw [parseEscape, if_pos rfl]
                      rw [show parseUEscape ('0' :: '0' :: hexDigitChar (c.toNat / 16) ::
                          hexDigitChar (c.toNat % 16) :: (escapeList cs ++ '"' :: rest)) =
                          match hexVal '0', hexVal '0', hexVal (hexDigitChar (c.toNat / 16)),
                            hexVal (hexDigitChar (c.toNat % 16)) with
                          | some v1, some v2, some v3, some v4 =>
                            some (Char.ofNat (v1 * 4096 + v2 * 256 + v3 * 16 + v4),
                              escapeList cs ++ '"' :: rest)
                          | _, _, _, _ => none from rfl]
                      rw [show hexVal '0' = some 0 from by decide,
                        hexVal_hexDigitChar _ (by omega : c.toNat / 16 < 16),
                        hexVal_hexDigitChar _ (by omega : c.toNat % 16 < 16)]
                      show some (Char.ofNat (0 * 4096 + 0 * 256 + c.toNat / 16 * 16 +
                        c.toNat % 16), escapeList cs ++ '"' :: rest) = _
                      have he : 0 * 4096 + 0 * 256 + c.toNat / 16 * 16 + c.toNat % 16 =
                          c.toNat := by omega
                      rw [he, charOfNat_toNat]
                    rw [parseStringBody_escape hpe, ih]
                    rfl
                  · rw [show escapeChar c = [c] from by
                        rw [escapeChar, if_neg hq, if_neg hb, if_neg h8, if_neg h9, if_neg h10,
                          if_neg h12, if_neg h13, if_neg hc]]
                    rw [List.cons_append, List.nil_append]
                    rw [parseStringBody_plain _ hq hb, ih]
                    rfl

/-! ## Literal matcher and JSON string parser -/

def expectLit : List Char → List Char → Option (List Char)
  | [], cs => some cs
  | _ :: _, [] => none
  | l :: ls, c :: cs => if c = l then expectLit ls cs else none

theorem expectLit_append (l rest : List Char) : expectLit l (l ++ rest) = some rest := by
  induction l with
  | nil => rfl
  | cons c cs ih =>
    rw [List.cons_append]
    rw [show expectLit (c :: cs) (c :: (cs ++ rest)) =
      if c = c then expectLit cs (cs ++ rest) else none from rfl]
    rw [if_pos rfl, ih]

def printJString (s : String) : List Char := '"' :: (escapeList s.data ++ ['"'])

def parseJString : List Char → Option (String × List Char)
  | [] => none
  | c :: rest =>
    if c = '"' then (parseStringBody rest).map (fun pr => (String.mk pr.fst, pr.snd))
    else none

theorem parseJString_print (s : String) (rest : List Char) :
    parseJString (printJString s ++ rest) = some (s, rest) := by
  rw [printJString, List.cons_append, List.append_assoc]
  rw [show ['"'] ++ rest = '"' :: rest from rfl]
  rw [show parseJString ('"' :: (escapeList s.data ++ '"' :: rest)) =
    if '"' = '"' then
      (parseStringBody (escapeList s.data ++ '"' :: rest)).map
        (fun pr => (String.mk pr.fst, pr.snd))
    else none from rfl]
  rw [if_pos rfl, parseStringBody_escapeList]
  cases s
  rfl

/-! ## PaymentPayload (header-factory.ts)

The TS interface fixes `x402Version` to the literal `2` and
`accepted.scheme` to the literal `'upto'`; both are therefore constants of
the wire format and carry no data. All other fields are strings. -/

structure PaymentExtra where
  name : String
  version : String
deriving DecidableEq, Repr

structure PaymentAccepted where
  network : String
  asset : String
  payTo : String
  extra : PaymentExtra
deriving DecidableEq, Repr

structure PaymentAuthorization where
  from_ : String
  to_ : String
  value : String
  validBefore : String
  nonce : String
deriving DecidableEq, Repr

structure PaymentPayloadBody where
  authorization : PaymentAuthorization
  signature : String
deriving DecidableEq, Repr

structure PaymentPayload where
  accepted : PaymentAccepted
  payload : PaymentPayloadBody
deriving DecidableEq, Repr

def ppLit1 : List Char :=
  ("\x7b\"x402Version\":2,\"accepted\":\x7b\"scheme\":\"upto\",\"network\":").data

def ppLit2 : List Char := (",\"asset\":").data

def ppLit3 : List Char := (",\"payTo\":").data

def ppLit4 : List Char := (",\"extra\":\x7b\"name\":").data

def ppLit5 : List Char := (",\"version\":").data

def ppLit6 : List Char := ("\x7d\x7d,\"payload\":\x7b\"authorization\":\x7b\"from\":").data

def ppLit7 : List Char := (",\"to\":").data

def ppLit8 : List Char := (",\"value\":").data

def ppLit9 : List Char := (",\"validBefore\":").data

def ppLit10 : List Char := (",\"nonce\":").data

def ppLit11 : List Char := ("\x7d,\"signature\":").data

def ppLit12 : List Char := ("\x7d\x7d").data

/-- The exact output of `JSON.stringify` on a `PaymentPayload` object. -/
def paymentPayloadJson (p : PaymentPayload) : List Char :=
  ppLit1 ++ printJString p.accepted.network ++ ppLit2 ++ printJString p.accepted.asset ++
    ppLit3 ++ printJString p.accepted.payTo ++ ppLit4 ++ printJString p.accepted.extra.name ++
    ppLit5 ++ printJString p.accepted.extra.version ++ ppLit6 ++
    printJString p.payload.authorization.from_ ++ ppLit7 ++
    printJString p.payload.authorization.to_ ++ ppLit8 ++
    printJString p.payload.authorization.value ++ ppLit9 ++
    printJString p.payload.authorization.validBefore ++ ppLit10 ++
    printJString p.payload.authorization.nonce ++ ppLit11 ++
    printJString p.payload.signature ++ ppLit12

/-- One JSON field: the literal `,"key":` part followed by a string value. -/
def parseField (lit : List Char) (cs : List Char) : Option (String × List Char) :=
  (expectLit lit cs).bind (fun cs1 => parseJString cs1)

/-- Parse a sequence of literal-prefixed string fields. -/
def parseFields : List (List Char) → List Char → Option (List String × List Char)
  | [], cs => some ([], cs)
  | lit :: lits, cs =>
    (parseField lit cs).bind (fun pr =>
      (parseFields lits pr.snd).bind (fun pr2 => some (pr.fst :: pr2.fst, pr2.snd)))

/-- The eleven literal separators of the `PaymentPayload` wire format, in
field order. -/
def ppLits : List (List Char) :=
  [ppLit1, ppLit2, ppLit3, ppLit4, ppLit5, ppLit6, ppLit7, ppLit8, ppLit9, ppLit10, ppLit11]

/-- Reassemble a `PaymentPayload` from its eleven string fields in wire
order. -/
def payloadOfFields : List String → Option PaymentPayload
  | [network, asset, payTo, name, version, from_, to_, value, validBefore, nonce, signature] =>
    some
      { accepted := { network := network, asset := asset, payTo := payTo,
                      extra := { name := name, version := version } },
        payload := { authorization := { from_ := from_, to_ := to_, value := value,
                                        validBefore := validBefore, nonce := nonce },
                     signature := signature } }
  | _ => none

/-- `JSON.parse` specialised to the `PaymentPayload` wire shape. -/
def parsePaymentPayload (cs0 : List Char) : Option PaymentPayload :=
  (parseFields ppLits cs0).bind (fun pr =>
    (expectLit ppLit12 pr.snd).bind (fun cs =>
      if cs = [] then payloadOfFields pr.fst else none))

theorem parseField_append (lit : List Char) (v : String) (rest : List Char) :
    parseField lit (lit ++ (printJString v ++ rest)) = some (v, rest) := by
  rw [parseField, expectLit_append, Option.some_bind, parseJString_print]

theorem expectLit_self (l : List Char) : expectLit l l = some [] := by
  have h := expectLit_append l []
  rwa [List.append_nil] at h

theorem parsePaymentPayload_print (p : PaymentPayload) :
    parsePaymentPayload (paymentPayloadJson p) = some p := by
  rw [paymentPayloadJson, parsePaymentPayload, ppLits]
  simp only [List.append_assoc]
  rw [show parseFields (ppLit1 :: [ppLit2, ppLit3, ppLit4, ppLit5, ppLit6, ppLit7, ppLit8,
    ppLit9, ppLit10, ppLit11]) = fun cs =>
      (parseField ppLit1 cs).bind (fun pr =>
        (parseFields [ppLit2, ppLit3, ppLit4, ppLit5, ppLit6, ppLit7, ppLit8, ppLit9, ppLit10,
          ppLit11] pr.snd).bind (fun pr2 => some (pr.fst :: pr2.fst, pr2.snd))) from rfl]
  simp only [parseFields, parseField_append, Option.some_bind]
  rw [expectLit_self]
  simp only [Option.some_bind, if_pos rfl, ite_true, payloadOfFields]

/-- `encodePaymentPayload` (header-factory.ts line 82): base64 of the UTF-8
bytes of the JSON text. -/
def encodePaymentPayload (payload : PaymentPayload) : String :=
  String.mk (b64encodeBytes (utf8EncodeList (paymentPayloadJson payload)))

/-- `decodePaymentPayload` (header-factory.ts line 86): base64-decode,
UTF-8-decode, JSON-parse; any failure yields `none`. -/
def decodePaymentPayload (encoded : String) : Option PaymentPayload :=
  (b64decodeChars encoded.data).bind (fun bytes =>
    (utf8Decode bytes).bind (fun chars => parsePaymentPayload chars))

theorem stringMk_data (l : List Char) : (String.mk l).data = l := rfl

theorem decode_encodePaymentPayload (p : PaymentPayload) :
    decodePaymentPayload (encodePaymentPayload p) = some p := by
  rw [decodePaymentPayload, encodePaymentPayload, stringMk_data,
    b64_roundtrip _ (utf8EncodeList_lt256 _), Option.some_bind,
    utf8_roundtrip, Option.some_bind, parsePaymentPayload_print]

/-! ## JavaScript string helpers -/

/-- JS truthiness for a possibly-undefined string: `undefined` and `""` are
falsy. -/
def strTruthy : Option String → Bool
  | some s => !(s == "")
  | none => false

/-- JS `a || b` where `a` is a possibly-undefined string and `b` a string. -/
def jsOrD (a : Option String) (b : String) : String :=
  match a with
  | some s => if s = "" then b else s
  | none => b

/-- JS `String.prototype.toLowerCase` (ASCII range, as used here). -/
def lowerStr (s : String) : String := String.mk (s.data.map Char.toLower)

def isPrefixList (needle hay : List Char) : Bool :=
  match needle, hay with
  | [], _ => true
  | _ :: _, [] => false
  | n :: ns, c :: cs => n == c && isPrefixList ns cs

/-- JS `String.prototype.includes`: `hay` contains `needle` as a contiguous
substring. -/
def containsSub (needle : List Char) : List Char → Bool
  | [] => needle.isEmpty
  | c :: cs => isPrefixList needle (c :: cs) || containsSub needle cs

def jsIncludes (hay needle : String) : Bool := containsSub needle.data hay.data

/-- JS `String.prototype.endsWith`. -/
def strEndsWith (s pat : String) : Bool := pat.data.isSuffixOf s.data

/-! ## Data model (header-factory.ts) -/

/-- `RouterConfig` (header-factory.ts lines 1-9). `paymentHeader?` is the
optional field. -/
structure RouterConfig where
  network : String
  asset : String
  payTo : String
  facilitatorSigner : String
  tokenName : String
  tokenVersion : String
  paymentHeader : Option String
deriving DecidableEq, Repr

/-- `SignatureInput` (header-factory.ts lines 35-44). -/
structure SignatureInput where
  network : String
  asset : String
  payTo : String
  facilitatorSigner : String
  tokenName : String
  tokenVersion : String
  permitCap : String
  minDeadlineExclusive : Option Int
deriving DecidableEq, Repr

/-- `SignatureOutput` (header-factory.ts lines 46-51). The TS `deadline`
field is the decimal string of an integer; it is modelled as the integer,
with `toString` applied where the code embeds it in a payload and
`parseInt` where the code reads it back. -/
structure SignatureOutput where
  signature : String
  nonce : String
  deadline : Int
  accountAddress : String
deriving DecidableEq, Repr

/-- `CachedHeader` (header-factory.ts lines 55-62). -/
structure CachedHeader where
  value : String
  deadline : Int
  maxValue : String
  network : String
  asset : String
  payTo : String
deriving DecidableEq, Repr

/-- `HeaderResult` (header-factory.ts lines 64-68). -/
structure HeaderResult where
  headerName : String
  headerValue : String
  deadline : Int
deriving DecidableEq, Repr

/-- The options record of `getHeader` (header-factory.ts lines 71-74). -/
structure GetHeaderOptions where
  capOverride : Option String
  minDeadlineExclusive : Option Int
deriving DecidableEq, Repr

/-- The factory's owned mutable pair `(config, cached)`
(header-factory.ts lines 134-135). -/
structure FactoryState where
  config : RouterConfig
  cached : Option CachedHeader
deriving DecidableEq, Repr

/-- `buildPaymentPayload` (header-factory.ts lines 91-122). `x402Version: 2`
and `scheme: 'upto'` are literal constants of the wire format. -/
def buildPaymentPayload (config : RouterConfig) (accountAddress : String) (permitCap : String)
    (signature : String) (nonce : String) (deadline : String) : PaymentPayload :=
  { accepted := { network := config.network, asset := config.asset, payTo := config.payTo,
                  extra := { name := config.tokenName, version := config.tokenVersion } },
    payload := { authorization := { from_ := accountAddress, to_ := config.facilitatorSigner,
                                    value := permitCap, validBefore := deadline,
                                    nonce := nonce },
                 signature := signature } }

/-- `PRE_INVALIDATE_WINDOW_SECONDS` (header-factory.ts line 80). -/
def PRE_INVALIDATE_WINDOW_SECONDS : Int := 60

/-- `isNearDeadline` (header-factory.ts lines 124-127); `now` is the
current clock in Unix seconds. -/
def isNearDeadline (now : Int) (deadline : Int) : Bool :=
  deadline - now ≤ PRE_INVALIDATE_WINDOW_SECONDS

/-- Result of one `getHeader` call: the returned `HeaderResult`, the
factory state afterwards, and the exact input passed to the signature
function if (and only if) it was invoked. -/
structure GetHeaderOut where
  result : HeaderResult
  state : FactoryState
  sigCall : Option SignatureInput
deriving DecidableEq, Repr

/-- The signing path of `getHeader` (header-factory.ts lines 157-192):
invoke the signature function, assemble and encode the payload, replace the
cache. -/
def signFresh (sigFn : SignatureInput → SignatureOutput) (s : FactoryState)
    (o : GetHeaderOptions) (cap : String) : GetHeaderOut :=
  let sigInput : SignatureInput :=
    { network := s.config.network, asset := s.config.asset, payTo := s.config.payTo,
      facilitatorSigner := s.config.facilitatorSigner, tokenName := s.config.tokenName,
      tokenVersion := s.config.tokenVersion, permitCap := cap,
      minDeadlineExclusive := o.minDeadlineExclusive }
  let out := sigFn sigInput
  let payload := buildPaymentPayload s.config out.accountAddress cap out.signature out.nonce
    (toString out.deadline)
  let encoded := encodePaymentPayload payload
  let deadline := out.deadline
  { result := { headerName := jsOrD s.config.paymentHeader "PAYMENT-SIGNATURE",
                headerValue := encoded, deadline := deadline },
    state := { config := s.config,
               cached := some { value := encoded, deadline := deadline, maxValue := cap,
                                network := s.config.network, asset := s.config.asset,
                                payTo := s.config.payTo } },
    sigCall := some sigInput }

/-- The branch of `getHeader` on the factory's `cached` slot, in the order
the source tests it: the cache is returned iff it exists, no
`minDeadlineExclusive` forces a refresh, the cached
`(maxValue, network, asset, payTo)` tuple matches, and the deadline is not
within the pre-invalidate window. -/
def getHeaderAux (sigFn : SignatureInput → SignatureOutput) (permitCap : String) (now : Int)
    (s : FactoryState) (o : GetHeaderOptions) : Option CachedHeader → GetHeaderOut
  | some c =>
    if !o.minDeadlineExclusive.isSome && c.maxValue == jsOrD o.capOverride permitCap &&
        c.network == s.config.network && c.asset == s.config.asset &&
        c.payTo == s.config.payTo && !isNearDeadline now c.deadline then
      { result := { headerName := jsOrD s.config.paymentHeader "PAYMENT-SIGNATURE",
                    headerValue := c.value, deadline := c.deadline },
        state := s, sigCall := none }
    else signFresh sigFn s o (jsOrD o.capOverride permitCap)
  | none => signFresh sigFn s o (jsOrD o.capOverride permitCap)

/-- `getHeader` (header-factory.ts lines 137-193); the effective cap is
`options?.capOverride || input.permitCap`. -/
def getHeader (sigFn : SignatureInput → SignatureOutput) (permitCap : String) (now : Int)
    (s : FactoryState) (o : GetHeaderOptions) : GetHeaderOut :=
  getHeaderAux sigFn permitCap now s o s.cached

/-- `invalidate` (header-factory.ts lines 197-199). -/
def invalidate (s : FactoryState) : FactoryState :=
  { config := s.config, cached := none }

/-- `updateConfig` (header-factory.ts lines 200-202): replaces the config
and does not touch the cache. -/
def updateConfig (s : FactoryState) (nextConfig : RouterConfig) : FactoryState :=
  { config := nextConfig, cached := s.cached }

/-! ## Error classification (client.ts) -/

/-- `ErrorResponse` (client.ts lines 8-12). -/
structure ErrorResponse where
  code : Option String
  error : Option String
  message : Option String
deriving DecidableEq, Repr

/-- `normalizeErrorText` (client.ts lines 54-56): lowercase of
`(error ?? '') + ' ' + (message ?? '')`. -/
def normalizeErrorText (error message : Option String) : String :=
  lowerStr ((error.getD "") ++ " " ++ (message.getD ""))

/-- `isCapExhausted` (client.ts lines 58-63). -/
def isCapExhausted (e : ErrorResponse) : Bool :=
  if e.code == some "cap_exhausted" then true
  else jsIncludes (normalizeErrorText e.error e.message) "cap exhausted"

/-- `isSessionClosed` (client.ts lines 65-70). -/
def isSessionClosed (e : ErrorResponse) : Bool :=
  if e.code == some "session_closed" then true
  else jsIncludes (normalizeErrorText e.error e.message) "session closed"

/-- `isSettlementBlocked` (client.ts lines 72-77). -/
def isSettlementBlocked (e : ErrorResponse) : Bool :=
  if e.code == some "settlement_blocked" then true
  else
    jsIncludes (normalizeErrorText e.error e.message) "settlement blocked" ||
      jsIncludes (normalizeErrorText e.error e.message) "blocked after previous settlement"

/-- `shouldInvalidatePermit` (client.ts lines 79-81). -/
def shouldInvalidatePermit (e : ErrorResponse) : Bool :=
  isCapExhausted e || isSessionClosed e || isSettlementBlocked e

/-- A JSON value as far as `parseErrorResponse` inspects it: a string, an
object carrying the four relevant fields (`code`, `type`, `message`,
`error`), or anything else (`null`, numbers, booleans; arrays are objects
whose four relevant fields are all absent). -/
inductive JVal where
  | jstr : String → JVal
  | jobj : Option JVal → Option JVal → Option JVal → Option JVal → JVal
  | jother : JVal

/-- `typeof v === 'string' ? v : undefined` on a possibly-absent field. -/
def asJStr : Option JVal → Option String
  | some (JVal.jstr s) => some s
  | _ => none

/-- `parseErrorResponse` (client.ts lines 83-118). The `jobj` fields are,
in order, `code`, `type`, `message`, `error`. -/
def parseErrorResponse : JVal → Option ErrorResponse
  | JVal.jstr _ => none
  | JVal.jother => none
  | JVal.jobj code _ message error =>
    if (asJStr code).isSome || (asJStr error).isSome then
      some { code := asJStr code,
             error := match asJStr error with
                      | some s => some s
                      | none => asJStr message,
             message := asJStr message }
    else
      match error with
      | some (JVal.jobj ncode ntyp nmessage nerror) =>
        some { code := match asJStr ncode with
                       | some s => some s
                       | none => asJStr ntyp,
               error := match asJStr nmessage with
                        | some s => some s
                        | none => asJStr nerror,
               message := asJStr nmessage }
      | _ => none

/-! ## Payment requirements (client.ts) -/

/-- `PaymentRequiredExtra` (client.ts lines 14-21). -/
structure PaymentRequiredExtra where
  name : Option String
  version : Option String
  maxAmount : Option String
  max_amount : Option String
  maxAmountRequired : Option String
  max_amount_required : Option String
deriving DecidableEq, Repr

/-- `PaymentRequirement` (client.ts lines 23-31). -/
structure PaymentRequirement where
  scheme : Option String
  network : Option String
  asset : Option String
  amount : Option String
  payTo : Option String
  pay_to : Option String
  extra : Option PaymentRequiredExtra
deriving DecidableEq, Repr

/-- `PaymentRequiredHeader` (client.ts lines 33-35). -/
structure PaymentRequiredHeader where
  accepts : Option (List PaymentRequirement)
deriving DecidableEq, Repr

/-- `getRequirementPayTo` (client.ts lines 139-142):
`requirement.payTo || requirement.pay_to || null`. -/
def getRequirementPayTo : Option PaymentRequirement → Option String
  | none => none
  | some r =>
    if strTruthy r.payTo then r.payTo
    else if strTruthy r.pay_to then r.pay_to
    else none

/-- `getRequirementMaxAmountRequired` (client.ts lines 144-155): the first
truthy of `extra.maxAmountRequired`, `extra.max_amount_required`,
`extra.maxAmount`, `extra.max_amount`, with `requirement.amount` as the
final (unconditional) fallback. -/
def getRequirementMaxAmountRequired : Option PaymentRequirement → Option String
  | none => none
  | some r =>
    if strTruthy (r.extra.bind (fun e => e.maxAmountRequired)) then
      r.extra.bind (fun e => e.maxAmountRequired)
    else if strTruthy (r.extra.bind (fun e => e.max_amount_required)) then
      r.extra.bind (fun e => e.max_amount_required)
    else if strTruthy (r.extra.bind (fun e => e.maxAmount)) then
      r.extra.bind (fun e => e.maxAmount)
    else if strTruthy (r.extra.bind (fun e => e.max_amount)) then
      r.extra.bind (fun e => e.max_amount)
    else r.amount

/-- `applyPaymentRequirement` (client.ts lines 157-172). -/
def applyPaymentRequirement (config : RouterConfig) : Option PaymentRequirement → RouterConfig
  | none => config
  | some r =>
    let payTo := jsOrD (getRequirementPayTo (some r)) config.payTo
    { network := jsOrD r.network config.network,
      asset := jsOrD r.asset config.asset,
      payTo := payTo,
      facilitatorSigner := if payTo = "" then config.facilitatorSigner else payTo,
      tokenName := jsOrD (r.extra.bind (fun e => e.name)) config.tokenName,
      tokenVersion := jsOrD (r.extra.bind (fun e => e.version)) config.tokenVersion,
      paymentHeader := config.paymentHeader }

/-! ## The fetch interceptor (client.ts `wrappedFetch`) -/

/-- The `origin` and `pathname` of the request URL after parsing
(client.ts lines 269-276); URL parsing itself is the platform's. -/
structure UrlParts where
  origin : String
  pathname : String
deriving DecidableEq, Repr

/-- `isConfigPath` (client.ts line 277). -/
def isConfigPath (pathname : String) : Bool :=
  strEndsWith pathname "/v1/config" || strEndsWith pathname "/config"

/-- `isModelsPath` (client.ts line 278). -/
def isModelsPath (pathname : String) : Bool :=
  strEndsWith pathname "/v1/models" || strEndsWith pathname "/models"

/-- A transport response as far as the interceptor inspects it: status,
the JSON value of the body (`none` when the body is not JSON), and the
decoded `PAYMENT-REQUIRED` header (`none` when absent or undecodable). -/
structure Response where
  status : Nat
  jsonBody : Option JVal
  paymentRequired : Option PaymentRequiredHeader

/-- `extractErrorResponse` (client.ts lines 120-126). -/
def extractErrorResponse (r : Response) : Option ErrorResponse :=
  match r.jsonBody with
  | none => none
  | some v => parseErrorResponse v

/-- Header bags are association lists; `Headers.set` replaces any entry
with the same (case-insensitive) name. -/
def setHeader (hs : List (String × String)) (name value : String) : List (String × String) :=
  hs.filter (fun kv => !(lowerStr kv.fst == lowerStr name)) ++ [(name, value)]

/-- Case-insensitive header lookup (`Headers.get`). -/
def getHeaderVal (hs : List (String × String)) (name : String) : Option String :=
  (hs.find? (fun kv => lowerStr kv.fst == lowerStr name)).map (fun kv => kv.snd)

/-- One call handed to the transport (`baseFetch`). `requestInfo` is always
passed through unchanged; the init record is spread-copied with only the
header bag replaced, so the headers are the one observable difference. -/
structure TransportCall where
  headers : List (String × String)
deriving DecidableEq, Repr

/-- The observable outcome of one `wrappedFetch` invocation: the returned
response, the transport calls made in order, the inputs passed to the
signature function in order, and the factory state afterwards. -/
structure FetchOutcome where
  response : Response
  calls : List TransportCall
  sigInputs : List SignatureInput
  finalState : FactoryState

/-- The first element of `decoded?.accepts` (client.ts line 316). -/
def firstRequirement (r : Response) : Option PaymentRequirement :=
  r.paymentRequired.bind (fun h => h.accepts.bind (fun l => l.head?))

/-- The config update on a challenge (client.ts lines 318-320): when the
decoded `PAYMENT-REQUIRED` header supplies a first requirement and a
factory exists, overlay it on the factory's config via `updateConfig`. -/
def challengeUpdate (s1 : FactoryState) : Option PaymentRequirement → FactoryState
  | some req => updateConfig s1 (applyPaymentRequirement s1.config (some req))
  | none => s1

/-- The retry decision on a 401/402 in signing mode (client.ts lines
322-329), branching on the parsed error body: retry (invalidate, extract
the server cap, one more `getHeader` with the first attempt's deadline as
`minDeadlineExclusive`, one more transport call) iff the error is non-null
and `shouldInvalidatePermit` classifies it; otherwise return the first
response. `s2` is the factory state after the `challengeUpdate`. -/
def wfChallenge (sigFn : SignatureInput → SignatureOutput) (permitCap : String) (now2 : Int)
    (initHeaders : List (String × String)) (resp1 resp2 : Response) (call1 : TransportCall)
    (g1 : GetHeaderOut) (s2 : FactoryState) : Option ErrorResponse → FetchOutcome
  | none =>
    { response := resp1, calls := [call1], sigInputs := g1.sigCall.toList, finalState := s2 }
  | some e =>
    if shouldInvalidatePermit e then
      let s3 := invalidate s2
      let maxAmount := getRequirementMaxAmountRequired (firstRequirement resp1)
      let g2 := getHeader sigFn permitCap now2 s3
        { capOverride := maxAmount, minDeadlineExclusive := some g1.result.deadline }
      { response := resp2,
        calls := [call1,
          { headers := setHeader initHeaders g2.result.headerName g2.result.headerValue }],
        sigInputs := g1.sigCall.toList ++ g2.sigCall.toList, finalState := g2.state }
    else
      { response := resp1, calls := [call1], sigInputs := g1.sigCall.toList, finalState := s2 }

/-- The signing-mode path of `wrappedFetch` (client.ts lines 300-329):
attach a header from the factory, send, and on a 401/402 run the
challenge handling. -/
def wrappedFetchSigning (sigFn : SignatureInput → SignatureOutput) (permitCap : String)
    (s0 : FactoryState) (now1 now2 : Int) (initHeaders : List (String × String))
    (resp1 resp2 : Response) : FetchOutcome :=
  let g1 := getHeader sigFn permitCap now1 s0
    { capOverride := none, minDeadlineExclusive := none }
  let call1 : TransportCall :=
    { headers := setHeader initHeaders g1.result.headerName g1.result.headerValue }
  if !(resp1.status == 401) && !(resp1.status == 402) then
    { response := resp1, calls := [call1], sigInputs := g1.sigCall.toList,
      finalState := g1.state }
  else
    wfChallenge sigFn permitCap now2 initHeaders resp1 resp2 call1 g1
      (challengeUpdate g1.state (firstRequirement resp1)) (extractErrorResponse resp1)

/-- The mode branch of `wrappedFetch` (client.ts lines 285-304): with a
`staticHeaderValue` the static header is attached and the response is
returned without any retry (no factory exists); otherwise the signing
path runs. -/
def wrappedFetchGated (permitCap : String) (staticHeaderName : Option String)
    (sigFn : SignatureInput → SignatureOutput) (s0 : FactoryState) (now1 now2 : Int)
    (initHeaders : List (String × String)) (resp1 resp2 : Response) :
    Option String → FetchOutcome
  | some v =>
    { response := resp1,
      calls := [{ headers := setHeader initHeaders (jsOrD staticHeaderName "PAYMENT-SIGNATURE") v }],
      sigInputs := [], finalState := s0 }
  | none => wrappedFetchSigning sigFn permitCap s0 now1 now2 initHeaders resp1 resp2

/-- `wrappedFetch` (client.ts lines 258-330), one invocation.

Parameters: `routerOrigin` and `permitCap` from construction;
`staticHeaderName`/`staticHeaderValue` select static-header mode when the
value is present; `sigFn` is the signature function (signing mode);
`s0` is the factory's state when the call starts; `now1`/`now2` are the
clock at the first and (potential) second `getHeader`; `url` is the parsed
request URL; `initHeaders` the caller's headers; `resp1`/`resp2` the
transport's answers to the first and second call. A request whose origin
is not the router's, or whose path is a config or models path, is
forwarded unchanged. -/
def wrappedFetch (routerOrigin : String) (permitCap : String)
    (staticHeaderName staticHeaderValue : Option String)
    (sigFn : SignatureInput → SignatureOutput) (s0 : FactoryState) (now1 now2 : Int)
    (url : UrlParts) (initHeaders : List (String × String))
    (resp1 resp2 : Response) : FetchOutcome :=
  if !(url.origin == routerOrigin) || isConfigPath url.pathname || isModelsPath url.pathname then
    { response := resp1, calls := [{ headers := initHeaders }], sigInputs := [],
      finalState := s0 }
  else
    wrappedFetchGated permitCap staticHeaderName sigFn s0 now1 now2 initHeaders resp1 resp2
      staticHeaderValue

/-! ## env_pk signing function (signature-sources.ts) -/

/-- The deadline computation of `createEnvPrivateKeySignatureFn`
(signature-sources.ts lines 80-83): `floor(now) + DEFAULT_VALIDITY_SECONDS`,
bumped to `minDeadlineExclusive + 1` when not already strictly past it. -/
def envPkDeadline (now : Int) (minDeadlineExclusive : Option Int) : Int :=
  let deadline := now + 3600
  match minDeadlineExclusive with
  | some m => if deadline ≤ m then m + 1 else deadline
  | none => deadline

/-- `createEnvPrivateKeySignatureFn` (signature-sources.ts lines 68-118),
restricted to its deterministic data flow: the chain lookup, on-chain nonce
read and EIP-712 signing primitive are external, so the nonce, signature
text and account address are parameters; the deadline is computed as in the
source. -/
def createEnvPrivateKeySignatureFn (now : Int) (nonce : Nat) (signatureText : String)
    (accountAddress : String) (input : SignatureInput) : SignatureOutput :=
  { signature := signatureText, nonce := toString nonce,
    deadline := envPkDeadline now input.minDeadlineExclusive,
    accountAddress := accountAddress }

/-! ## Helper lemmas about getHeader -/

theorem jsOrD_none (b : String) : jsOrD none b = b := rfl

theorem getHeader_config (sigFn : SignatureInput → SignatureOutput) (permitCap : String)
    (now : Int) (s : FactoryState) (o : GetHeaderOptions) :
    (getHeader sigFn permitCap now s o).state.config = s.config := by
  rw [getHeader]
  cases s.cached with
  | none => rfl
  | some c =>
    simp only [getHeaderAux]
    split
    · rfl
    · rfl

theorem getHeader_headerName (sigFn : SignatureInput → SignatureOutput) (permitCap : String)
    (now : Int) (s : FactoryState) (o : GetHeaderOptions) :
    (getHeader sigFn permitCap now s o).result.headerName =
      jsOrD s.config.paymentHeader "PAYMENT-SIGNATURE" := by
  rw [getHeader]
  cases s.cached with
  | none => rfl
  | some c =>
    simp only [getHeaderAux]
    split
    · rfl
    · rfl

theorem getHeader_state_cached (sigFn : SignatureInput → SignatureOutput) (permitCap : String)
    (now : Int) (s : FactoryState) (o : GetHeaderOptions) :
    ∃ c', (getHeader sigFn permitCap now s o).state.cached = some c' ∧
      c'.value = (getHeader sigFn permitCap now s o).result.headerValue ∧
      c'.deadline = (getHeader sigFn permitCap now s o).result.deadline ∧
      c'.maxValue = jsOrD o.capOverride permitCap ∧
      c'.network = s.config.network ∧ c'.asset = s.config.asset ∧
      c'.payTo = s.config.payTo := by
  rw [getHeader]
  cases hc : s.cached with
  | none => exact ⟨_, rfl, rfl, rfl, rfl, rfl, rfl, rfl⟩
  | some c =>
    simp only [getHeaderAux]
    split
    · next hcond =>
      simp only [Bool.and_eq_true, beq_iff_eq, Bool.not_eq_true'] at hcond
      exact ⟨c, hc, rfl, rfl, hcond.1.1.1.1.2, hcond.1.1.1.2, hcond.1.1.2, hcond.1.2⟩
    · exact ⟨_, rfl, rfl, rfl, rfl, rfl, rfl, rfl⟩

theorem getHeader_hit {sigFn : SignatureInput → SignatureOutput} {permitCap : String}
    {now : Int} {s : FactoryState} {o : GetHeaderOptions} {c : CachedHeader}
    (hc : s.cached = some c) (hmin : o.minDeadlineExclusive = none)
    (hcap : c.maxValue = jsOrD o.capOverride permitCap)
    (hn : c.network = s.config.network) (ha : c.asset = s.config.asset)
    (hp : c.payTo = s.config.payTo)
    (hd : PRE_INVALIDATE_WINDOW_SECONDS < c.deadline - now) :
    getHeader sigFn permitCap now s o =
      { result := { headerName := jsOrD s.config.paymentHeader "PAYMENT-SIGNATURE",
                    headerValue := c.value, deadline := c.deadline },
        state := s, sigCall := none } := by
  rw [getHeader, hc]
  simp only [getHeaderAux]
  rw [if_pos]
  have hd2 : ¬(c.deadline - now ≤ 60) := by
    rw [PRE_INVALIDATE_WINDOW_SECONDS] at hd
    omega
  simp [hmin, hcap, hn, ha, hp, isNearDeadline, PRE_INVALIDATE_WINDOW_SECONDS, hd2]

theorem getHeader_miss_forced {sigFn : SignatureInput → SignatureOutput} {permitCap : String}
    {now : Int} {s : FactoryState} {o : GetHeaderOptions} {m : Int}
    (hmin : o.minDeadlineExclusive = some m) :
    getHeader sigFn permitCap now s o = signFresh sigFn s o (jsOrD o.capOverride permitCap) := by
  rw [getHeader]
  cases s.cached with
  | none => rfl
  | some c =>
    simp only [getHeaderAux]
    rw [if_neg]
    simp [hmin]

theorem getHeader_miss_empty {sigFn : SignatureInput → SignatureOutput} {permitCap : String}
    {now : Int} {s : FactoryState} {o : GetHeaderOptions}
    (hc : s.cached = none) :
    getHeader sigFn permitCap now s o = signFresh sigFn s o (jsOrD o.capOverride permitCap) := by
  rw [getHeader, hc]
  rfl

theorem signFresh_sigCall (sigFn : SignatureInput → SignatureOutput) (s : FactoryState)
    (o : GetHeaderOptions) (cap : String) :
    (signFresh sigFn s o cap).sigCall =
      some { network := s.config.network, asset := s.config.asset, payTo := s.config.payTo,
             facilitatorSigner := s.config.facilitatorSigner, tokenName := s.config.tokenName,
             tokenVersion := s.config.tokenVersion, permitCap := cap,
             minDeadlineExclusive := o.minDeadlineExclusive } := rfl

/-- The cache-usability test of `getHeader`, as a proposition. -/
theorem cacheCond_iff (o : GetHeaderOptions) (permitCap : String) (now : Int)
    (s : FactoryState) (c : CachedHeader) :
    (!o.minDeadlineExclusive.isSome && c.maxValue == jsOrD o.capOverride permitCap &&
      c.network == s.config.network && c.asset == s.config.asset &&
      c.payTo == s.config.payTo && !isNearDeadline now c.deadline) = true ↔
    (o.minDeadlineExclusive = none ∧ c.maxValue = jsOrD o.capOverride permitCap ∧
      c.network = s.config.network ∧ c.asset = s.config.asset ∧ c.payTo = s.config.payTo ∧
      60 < c.deadline - now) := by
  cases homin : o.minDeadlineExclusive with
  | some m =>
    simp [homin]
  | none =>
    simp [homin, isNearDeadline, PRE_INVALIDATE_WINDOW_SECONDS, and_assoc]
    intro _ _ _ _
    omega

/-- Claim C1: a second `getHeader` with the same effective cap, no
intervening `invalidate` or domain-changing `updateConfig`, no
`minDeadlineExclusive`, and a clock still strictly more than 60 seconds
before the cached deadline, returns a byte-identical `headerValue` and the
signing function is invoked exactly once across the two calls (by the
first call, when it started without a cache). Moreover the cache is reused
iff `cached` is non-null, `minDeadlineExclusive` is unset, `cached.maxValue`
equals the effective cap, the cached `(network, asset, payTo)` equals the
config's, and `cached.deadline − now > 60`. -/
theorem claim_C1_cache_reuse :
    (∀ (sigFn : SignatureInput → SignatureOutput) (permitCap : String) (now : Int)
      (s : FactoryState) (o : GetHeaderOptions),
      (getHeader sigFn permitCap now s o).sigCall = none ↔
        ∃ c, s.cached = some c ∧ o.minDeadlineExclusive = none ∧
          c.maxValue = jsOrD o.capOverride permitCap ∧ c.network = s.config.network ∧
          c.asset = s.config.asset ∧ c.payTo = s.config.payTo ∧
          60 < c.deadline - now) ∧
    (∀ (sigFn : SignatureInput → SignatureOutput) (permitCap : String) (t1 t2 : Int)
      (s : FactoryState),
      60 < (getHeader sigFn permitCap t1 s ⟨none, none⟩).result.deadline - t2 →
        (getHeader sigFn permitCap t2 (getHeader sigFn permitCap t1 s ⟨none, none⟩).state
            ⟨none, none⟩).result.headerValue =
          (getHeader sigFn permitCap t1 s ⟨none, none⟩).result.headerValue ∧
        (getHeader sigFn permitCap t2 (getHeader sigFn permitCap t1 s ⟨none, none⟩).state
            ⟨none, none⟩).sigCall = none ∧
        (s.cached = none →
          (getHeader sigFn permitCap t1 s ⟨none, none⟩).sigCall.isSome = true)) := by
  constructor
  · intro sigFn permitCap now s o
    rw [getHeader]
    cases hc : s.cached with
    | none =>
      simp [signFresh, getHeaderAux]
    | some c =>
      simp only [getHeaderAux]
      split
      · next hcond =>
        simp only [true_iff]
        refine ⟨c, rfl, ?_⟩
        have h := (cacheCond_iff o permitCap now s c).mp hcond
        exact ⟨h.1, h.2.1, h.2.2.1, h.2.2.2.1, h.2.2.2.2.1, h.2.2.2.2.2⟩
      · next hcond =>
        constructor
        · intro habs
          exact absurd habs (by simp [signFresh])
        · rintro ⟨c', hc', hmin, hcap, hn, ha, hp, hd⟩
          injection hc' with hcc
          subst hcc
          exact absurd ((cacheCond_iff o permitCap now s _).mpr
            ⟨hmin, hcap, hn, ha, hp, hd⟩) hcond
  · intro sigFn permitCap t1 t2 s hd
    obtain ⟨c1, hcc, hval, hdl, hcap, hn, ha, hp⟩ :=
      getHeader_state_cached sigFn permitCap t1 s ⟨none, none⟩
    have hcfg := getHeader_config sigFn permitCap t1 s ⟨none, none⟩
    have hit := @getHeader_hit sigFn permitCap t2 _ ⟨none, none⟩ _
      hcc rfl hcap (by rw [hn, hcfg]) (by rw [ha, hcfg])
      (by rw [hp, hcfg]) (by rw [PRE_INVALIDATE_WINDOW_SECONDS, hdl]; omega)
    refine ⟨?_, ?_, ?_⟩
    · rw [hit, hval]
    · rw [hit]
    · intro hnone
      rw [getHeader_miss_empty hnone]
      rfl

/-- Claim C4: `getHeader` with a `minDeadlineExclusive` option always
invokes the signing function, even when a valid cache entry exists. -/
theorem claim_C4_force_refresh (sigFn : SignatureInput → SignatureOutput)
    (permitCap : String) (now : Int) (s : FactoryState) (o : GetHeaderOptions) (m : Int)
    (h : o.minDeadlineExclusive = some m) :
    (getHeader sigFn permitCap now s o).sigCall.isSome = true := by
  rw [getHeader_miss_forced h]
  rfl

/-! ## Concrete fixtures for witnesses -/

def wConfig : RouterConfig :=
  { network := "eip155:8453", asset := "0x833589fCD6eDb6E08f4c7C32D4f71b54bdA02913",
    payTo := "0x1234567890abcdef1234567890abcdef12345678",
    facilitatorSigner := "0x1234567890abcdef1234567890abcdef12345678",
    tokenName := "USD Coin", tokenVersion := "2",
    paymentHeader := some "PAYMENT-SIGNATURE" }

def wSigFn : SignatureInput → SignatureOutput := fun input =>
  { signature := "0xsig", nonce := "1",
    deadline := match input.minDeadlineExclusive with
                | some m => m + 1
                | none => 1000,
    accountAddress := "0x9999999999999999999999999999999999999999" }

/-- A factory state holding a fresh, matching cache entry for cap
`"1000000"`. -/
def wCachedState : FactoryState :=
  { config := wConfig,
    cached := some { value := "cached-header", deadline := 1000, maxValue := "1000000",
                     network := wConfig.network, asset := wConfig.asset,
                     payTo := wConfig.payTo } }

theorem claim_C1_witness :
    60 < (getHeader wSigFn "1000000" 0 { config := wConfig, cached := none }
        ⟨none, none⟩).result.deadline - 100 ∧
    ((getHeader wSigFn "1000000" 100
        (getHeader wSigFn "1000000" 0 { config := wConfig, cached := none }
          ⟨none, none⟩).state ⟨none, none⟩).result.headerValue =
      (getHeader wSigFn "1000000" 0 { config := wConfig, cached := none }
        ⟨none, none⟩).result.headerValue ∧
    (getHeader wSigFn "1000000" 100
        (getHeader wSigFn "1000000" 0 { config := wConfig, cached := none }
          ⟨none, none⟩).state ⟨none, none⟩).sigCall = none ∧
    (({ config := wConfig, cached := none } : FactoryState).cached = none →
      (getHeader wSigFn "1000000" 0 { config := wConfig, cached := none }
        ⟨none, none⟩).sigCall.isSome = true)) := by
  have hd : 60 < (getHeader wSigFn "1000000" 0 { config := wConfig, cached := none }
      ⟨none, none⟩).result.deadline - 100 := by
    rw [getHeader_miss_empty rfl]
    show (60 : Int) < 1000 - 100
    omega
  exact ⟨hd, claim_C1_cache_reuse.2 wSigFn "1000000" 0 100
    { config := wConfig, cached := none } hd⟩

theorem claim_C4_witness :
    (getHeader wSigFn "1000000" 0 wCachedState
      ⟨none, some 500⟩).sigCall.isSome = true :=
  claim_C4_force_refresh wSigFn "1000000" 0 wCachedState ⟨none, some 500⟩ 500 rfl

/-- On the signing path, the exact input handed to the signature function
and the decoded attached payload. -/
theorem getHeader_sign_shape (sigFn : SignatureInput → SignatureOutput) (permitCap : String)
    (now : Int) (s : FactoryState) (o : GetHeaderOptions) (i : SignatureInput)
    (hsig : (getHeader sigFn permitCap now s o).sigCall = some i) :
    i = { network := s.config.network, asset := s.config.asset, payTo := s.config.payTo,
          facilitatorSigner := s.config.facilitatorSigner, tokenName := s.config.tokenName,
          tokenVersion := s.config.tokenVersion, permitCap := jsOrD o.capOverride permitCap,
          minDeadlineExclusive := o.minDeadlineExclusive } ∧
    decodePaymentPayload (getHeader sigFn permitCap now s o).result.headerValue =
      some (buildPaymentPayload s.config (sigFn i).accountAddress i.permitCap
        (sigFn i).signature (sigFn i).nonce (toString (sigFn i).deadline)) := by
  have hcases : getHeader sigFn permitCap now s o =
      signFresh sigFn s o (jsOrD o.capOverride permitCap) ∨
      (getHeader sigFn permitCap now s o).sigCall = none := by
    rw [getHeader]
    cases s.cached with
    | none => exact Or.inl rfl
    | some c =>
      simp only [getHeaderAux]
      split
      · exact Or.inr rfl
      · exact Or.inl rfl
  rcases hcases with heq | hnone
  · rw [heq] at hsig
    rw [signFresh_sigCall] at hsig
    injection hsig with hi
    subst hi
    refine ⟨rfl, ?_⟩
    rw [heq]
    exact decode_encodePaymentPayload _
  · rw [hnone] at hsig
    cases hsig

/-- Claim C10 (implicit frame effect): after an `updateConfig` that keeps
`(network, asset, payTo)` (that is, differs only in `facilitatorSigner`,
`tokenName`, `tokenVersion` or `paymentHeader`), a still-fresh cached
header with matching cap is reused without invoking the signing function:
the returned `headerValue` is the one assembled under the old config (in
particular its `extra.name`/`extra.version`/`authorization.to` carry the
old `tokenName`/`tokenVersion`/`facilitatorSigner` when the first call
signed it), while the returned `headerName` already reflects the new
`paymentHeader`. -/
theorem claim_C10_update_frame (sigFn : SignatureInput → SignatureOutput) (permitCap : String)
    (t1 t2 : Int) (s : FactoryState) (cNew : RouterConfig)
    (hn : cNew.network = s.config.network) (ha : cNew.asset = s.config.asset)
    (hp : cNew.payTo = s.config.payTo)
    (hd : 60 < (getHeader sigFn permitCap t1 s ⟨none, none⟩).result.deadline - t2) :
    (getHeader sigFn permitCap t2
        (updateConfig (getHeader sigFn permitCap t1 s ⟨none, none⟩).state cNew)
        ⟨none, none⟩).sigCall = none ∧
    (getHeader sigFn permitCap t2
        (updateConfig (getHeader sigFn permitCap t1 s ⟨none, none⟩).state cNew)
        ⟨none, none⟩).result.headerValue =
      (getHeader sigFn permitCap t1 s ⟨none, none⟩).result.headerValue ∧
    (getHeader sigFn permitCap t2
        (updateConfig (getHeader sigFn permitCap t1 s ⟨none, none⟩).state cNew)
        ⟨none, none⟩).result.headerName = jsOrD cNew.paymentHeader "PAYMENT-SIGNATURE" ∧
    (s.cached = none →
      ∃ p, decodePaymentPayload
          (getHeader sigFn permitCap t2
            (updateConfig (getHeader sigFn permitCap t1 s ⟨none, none⟩).state cNew)
            ⟨none, none⟩).result.headerValue = some p ∧
        p.accepted.extra.name = s.config.tokenName ∧
        p.accepted.extra.version = s.config.tokenVersion ∧
        p.payload.authorization.to_ = s.config.facilitatorSigner) := by
  obtain ⟨c1, hcc, hval, hdl, hcap, hcn, hca, hcp⟩ :=
    getHeader_state_cached sigFn permitCap t1 s ⟨none, none⟩
  have hcfg := getHeader_config sigFn permitCap t1 s ⟨none, none⟩
  have hcc2 : (updateConfig (getHeader sigFn permitCap t1 s ⟨none, none⟩).state cNew).cached =
      some c1 := hcc
  have hit := @getHeader_hit sigFn permitCap t2 _ ⟨none, none⟩ _
    hcc2 rfl hcap (by rw [hcn, ← hn]; rfl) (by rw [hca, ← ha]; rfl)
    (by rw [hcp, ← hp]; rfl) (by rw [PRE_INVALIDATE_WINDOW_SECONDS, hdl]; omega)
  refine ⟨by rw [hit], by rw [hit, hval], by rw [hit]; rfl, ?_⟩
  intro hnone
  rw [hit]
  show ∃ p, decodePaymentPayload c1.value = some p ∧ _
  rw [hval, getHeader_miss_empty hnone]
  exact ⟨_, decode_encodePaymentPayload _, rfl, rfl, rfl⟩

theorem claim_C10_witness :
    (wConfig.network = wConfig.network) ∧
    ((getHeader wSigFn "1000000" 100
        (updateConfig (getHeader wSigFn "1000000" 0
          { config := wConfig, cached := none } ⟨none, none⟩).state
          { wConfig with facilitatorSigner := "0xother", tokenName := "Other Coin",
                         paymentHeader := some "X-PAY" })
        ⟨none, none⟩).sigCall = none ∧
    (getHeader wSigFn "1000000" 100
        (updateConfig (getHeader wSigFn "1000000" 0
          { config := wConfig, cached := none } ⟨none, none⟩).state
          { wConfig with facilitatorSigner := "0xother", tokenName := "Other Coin",
                         paymentHeader := some "X-PAY" })
        ⟨none, none⟩).result.headerValue =
      (getHeader wSigFn "1000000" 0 { config := wConfig, cached := none }
        ⟨none, none⟩).result.headerValue ∧
    (getHeader wSigFn "1000000" 100
        (updateConfig (getHeader wSigFn "1000000" 0
          { config := wConfig, cached := none } ⟨none, none⟩).state
          { wConfig with facilitatorSigner := "0xother", tokenName := "Other Coin",
                         paymentHeader := some "X-PAY" })
        ⟨none, none⟩).result.headerName =
      jsOrD ({ wConfig with facilitatorSigner := "0xother", tokenName := "Other Coin",
                            paymentHeader := some "X-PAY" } : RouterConfig).paymentHeader
        "PAYMENT-SIGNATURE" ∧
    (({ config := wConfig, cached := none } : FactoryState).cached = none →
      ∃ p, decodePaymentPayload
          (getHeader wSigFn "1000000" 100
            (updateConfig (getHeader wSigFn "1000000" 0
              { config := wConfig, cached := none } ⟨none, none⟩).state
              { wConfig with facilitatorSigner := "0xother", tokenName := "Other Coin",
                             paymentHeader := some "X-PAY" })
            ⟨none, none⟩).result.headerValue = some p ∧
        p.accepted.extra.name = wConfig.tokenName ∧
        p.accepted.extra.version = wConfig.tokenVersion ∧
        p.payload.authorization.to_ = wConfig.facilitatorSigner)) := by
  refine ⟨rfl, ?_⟩
  have hd : 60 < (getHeader wSigFn "1000000" 0 { config := wConfig, cached := none }
      ⟨none, none⟩).result.deadline - 100 := by
    rw [getHeader_miss_empty rfl]
    show (60 : Int) < 1000 - 100
    omega
  exact claim_C10_update_frame wSigFn "1000000" 0 100 { config := wConfig, cached := none }
    { wConfig with facilitatorSigner := "0xother", tokenName := "Other Coin",
                   paymentHeader := some "X-PAY" } rfl rfl rfl hd

/-- The effective cap of the claim as specified (`capOverride ?? default`,
nullish coalescing): the override is used whenever it is provided,
including when it is the empty string. Written from the spec's words, for
comparison with the code's `jsOrD` (JS `||`). -/
def specEffectiveCap (capOverride : Option String) (defaultPermitCap : String) : String :=
  match capOverride with
  | some cap => cap
  | none => defaultPermitCap

def wSigInputEmptyCap : SignatureInput :=
  { network := wConfig.network, asset := wConfig.asset, payTo := wConfig.payTo,
    facilitatorSigner := wConfig.facilitatorSigner, tokenName := wConfig.tokenName,
    tokenVersion := wConfig.tokenVersion, permitCap := "1000000",
    minDeadlineExclusive := none }

/-- Claim C8 counterexample: with `capOverride = ""` (provided but empty),
the signing function receives the factory's `permitCap`, not the empty
string the claim's `capOverride ?? defaultPermitCap` predicts. -/
theorem claim_C8_counterexample :
    (getHeader wSigFn "1000000" 0 { config := wConfig, cached := none }
      ⟨some "", none⟩).sigCall = some wSigInputEmptyCap ∧
    wSigInputEmptyCap.permitCap ≠ specEffectiveCap (some "") "1000000" := by
  constructor
  · rfl
  · decide

/-- Claim C8 (amended): the effective cap — the value passed to the signing
function as `permitCap` and carried as the payload's `authorization.value`
— is `capOverride || defaultPermitCap`: the override when it is provided
and non-empty, and the factory's configured `permitCap` when the override
is absent or the empty string. -/
theorem claim_C8_effective_cap (sigFn : SignatureInput → SignatureOutput) (permitCap : String)
    (now : Int) (s : FactoryState) (o : GetHeaderOptions) (i : SignatureInput)
    (hsig : (getHeader sigFn permitCap now s o).sigCall = some i) :
    (∀ cap, o.capOverride = some cap → cap ≠ "" → i.permitCap = cap) ∧
    (o.capOverride = none → i.permitCap = permitCap) ∧
    (o.capOverride = some "" → i.permitCap = permitCap) ∧
    (∃ p, decodePaymentPayload (getHeader sigFn permitCap now s o).result.headerValue =
        some p ∧ p.payload.authorization.value = i.permitCap) := by
  obtain ⟨hi, hdec⟩ := getHeader_sign_shape sigFn permitCap now s o i hsig
  refine ⟨?_, ?_, ?_, ?_⟩
  · intro cap hcap hne
    rw [hi]
    show jsOrD o.capOverride permitCap = cap
    rw [hcap, jsOrD, if_neg hne]
  · intro hcap
    rw [hi]
    show jsOrD o.capOverride permitCap = permitCap
    rw [hcap]
    rfl
  · intro hcap
    rw [hi]
    show jsOrD o.capOverride permitCap = permitCap
    rw [hcap, jsOrD, if_pos rfl]
  · exact ⟨_, hdec, rfl⟩

theorem claim_C8_witness :
    ((∀ cap, (some "" : Option String) = some cap → cap ≠ "" →
        wSigInputEmptyCap.permitCap = cap) ∧
    ((some "" : Option String) = none → wSigInputEmptyCap.permitCap = "1000000") ∧
    ((some "" : Option String) = some "" → wSigInputEmptyCap.permitCap = "1000000") ∧
    (∃ p, decodePaymentPayload (getHeader wSigFn "1000000" 0
        { config := wConfig, cached := none } ⟨some "", none⟩).result.headerValue =
        some p ∧ p.payload.authorization.value = wSigInputEmptyCap.permitCap)) :=
  claim_C8_effective_cap wSigFn "1000000" 0 { config := wConfig, cached := none }
    ⟨some "", none⟩ wSigInputEmptyCap rfl

/-- Claim C6: the `env_pk` signing function returns
`deadline = floor(now) + 3600`, except that when `minDeadlineExclusive` is
set and `floor(now) + 3600 ≤ minDeadlineExclusive` it returns
`minDeadlineExclusive + 1`; consequently when `minDeadlineExclusive` is set
the returned deadline is strictly greater than it. -/
theorem claim_C6_env_pk_deadline (now : Int) (nonce : Nat) (sig acct : String)
    (input : SignatureInput) :
    (input.minDeadlineExclusive = none →
      (createEnvPrivateKeySignatureFn now nonce sig acct input).deadline = now + 3600) ∧
    (∀ m, input.minDeadlineExclusive = some m →
      (now + 3600 ≤ m →
        (createEnvPrivateKeySignatureFn now nonce sig acct input).deadline = m + 1) ∧
      (m < now + 3600 →
        (createEnvPrivateKeySignatureFn now nonce sig acct input).deadline = now + 3600) ∧
      m < (createEnvPrivateKeySignatureFn now nonce sig acct input).deadline) := by
  constructor
  · intro h
    simp [createEnvPrivateKeySignatureFn, envPkDeadline, h]
  · intro m h
    refine ⟨?_, ?_, ?_⟩
    · intro hle
      simp [createEnvPrivateKeySignatureFn, envPkDeadline, h, hle]
    · intro hlt
      have : ¬(now + 3600 ≤ m) := by omega
      simp [createEnvPrivateKeySignatureFn, envPkDeadline, h, this]
    · by_cases hle : now + 3600 ≤ m
      · simp only [createEnvPrivateKeySignatureFn, envPkDeadline, h, if_pos hle]
        omega
      · simp only [createEnvPrivateKeySignatureFn, envPkDeadline, h, if_neg hle]
        omega

def wSigInputMin : SignatureInput :=
  { network := wConfig.network, asset := wConfig.asset, payTo := wConfig.payTo,
    facilitatorSigner := wConfig.facilitatorSigner, tokenName := wConfig.tokenName,
    tokenVersion := wConfig.tokenVersion, permitCap := "1000000",
    minDeadlineExclusive := some 5000 }

theorem claim_C6_witness :
    (createEnvPrivateKeySignatureFn 0 7 "0xsig" "0xacct" wSigInputMin).deadline = 5000 + 1 ∧
    5000 < (createEnvPrivateKeySignatureFn 0 7 "0xsig" "0xacct" wSigInputMin).deadline := by
  have h := (claim_C6_env_pk_deadline 0 7 "0xsig" "0xacct" wSigInputMin).2 5000 rfl
  exact ⟨h.1 (by omega), h.2.2⟩

/-- Claim C9: decoding the base64-encoded JSON header value of any payload
built from a config, cap and signature output yields the original payload. -/
theorem claim_C9_roundtrip (config : RouterConfig)
    (accountAddress permitCap signature nonce deadline : String) :
    decodePaymentPayload (encodePaymentPayload
      (buildPaymentPayload config accountAddress permitCap signature nonce deadline)) =
      some (buildPaymentPayload config accountAddress permitCap signature nonce deadline) :=
  decode_encodePaymentPayload _

/-! ## Helper lemmas about the interceptor -/

theorem getHeaderVal_setHeader (hs : List (String × String)) (name v : String) :
    getHeaderVal (setHeader hs name v) name = some v := by
  rw [getHeaderVal, setHeader, List.find?_append]
  have hnone : (hs.filter (fun kv => !(lowerStr kv.fst == lowerStr name))).find?
      (fun kv => lowerStr kv.fst == lowerStr name) = none := by
    rw [List.find?_eq_none]
    intro kv hkv
    have := (List.mem_filter.mp hkv).2
    simp only [Bool.not_eq_true'] at this
    simp [this]
  rw [hnone]
  simp [List.find?]

theorem challengeUpdate_paymentHeader (s1 : FactoryState) (req : Option PaymentRequirement) :
    (challengeUpdate s1 req).config.paymentHeader = s1.config.paymentHeader := by
  cases req with
  | none => rfl
  | some r => rfl

theorem invalidate_config (s : FactoryState) : (invalidate s).config = s.config := rfl

/-- The bypass branch of `wrappedFetch`. -/
theorem wrappedFetch_bypass {routerOrigin permitCap : String}
    {staticHeaderName staticHeaderValue : Option String}
    {sigFn : SignatureInput → SignatureOutput} {s0 : FactoryState} {now1 now2 : Int}
    {url : UrlParts} {initHeaders : List (String × String)} {resp1 resp2 : Response}
    (h : (!(url.origin == routerOrigin) || isConfigPath url.pathname ||
      isModelsPath url.pathname) = true) :
    wrappedFetch routerOrigin permitCap staticHeaderName staticHeaderValue sigFn s0 now1 now2
      url initHeaders resp1 resp2 =
    { response := resp1, calls := [{ headers := initHeaders }], sigInputs := [],
      finalState := s0 } := by
  rw [wrappedFetch, if_pos h]

/-- The chargeable branch of `wrappedFetch` reduces to the mode branch. -/
theorem wrappedFetch_chargeable {routerOrigin permitCap : String}
    {staticHeaderName staticHeaderValue : Option String}
    {sigFn : SignatureInput → SignatureOutput} {s0 : FactoryState} {now1 now2 : Int}
    {url : UrlParts} {initHeaders : List (String × String)} {resp1 resp2 : Response}
    (h : (!(url.origin == routerOrigin) || isConfigPath url.pathname ||
      isModelsPath url.pathname) = false) :
    wrappedFetch routerOrigin permitCap staticHeaderName staticHeaderValue sigFn s0 now1 now2
      url initHeaders resp1 resp2 =
    wrappedFetchGated permitCap staticHeaderName sigFn s0 now1 now2 initHeaders resp1 resp2
      staticHeaderValue := by
  rw [wrappedFetch, if_neg]
  simp [h]

/-- The signing path on a non-challenge response. -/
theorem wrappedFetchSigning_ok {sigFn : SignatureInput → SignatureOutput}
    {permitCap : String} {s0 : FactoryState} {now1 now2 : Int}
    {initHeaders : List (String × String)} {resp1 resp2 : Response}
    (h1 : resp1.status ≠ 401) (h2 : resp1.status ≠ 402) :
    wrappedFetchSigning sigFn permitCap s0 now1 now2 initHeaders resp1 resp2 =
    { response := resp1,
      calls := [TransportCall.mk
        (setHeader initHeaders
          (getHeader sigFn permitCap now1 s0 ⟨none, none⟩).result.headerName
          (getHeader sigFn permitCap now1 s0 ⟨none, none⟩).result.headerValue)],
      sigInputs := (getHeader sigFn permitCap now1 s0 ⟨none, none⟩).sigCall.toList,
      finalState := (getHeader sigFn permitCap now1 s0 ⟨none, none⟩).state } := by
  rw [wrappedFetchSigning]
  rw [if_pos]
  simp [h1, h2]

/-- The signing path on a challenge response reduces to the challenge
handler. -/
theorem wrappedFetchSigning_challenge {sigFn : SignatureInput → SignatureOutput}
    {permitCap : String} {s0 : FactoryState} {now1 now2 : Int}
    {initHeaders : List (String × String)} {resp1 resp2 : Response}
    (h : resp1.status = 401 ∨ resp1.status = 402) :
    wrappedFetchSigning sigFn permitCap s0 now1 now2 initHeaders resp1 resp2 =
    wfChallenge sigFn permitCap now2 initHeaders resp1 resp2
      (TransportCall.mk
        (setHeader initHeaders
          (getHeader sigFn permitCap now1 s0 ⟨none, none⟩).result.headerName
          (getHeader sigFn permitCap now1 s0 ⟨none, none⟩).result.headerValue))
      (getHeader sigFn permitCap now1 s0 ⟨none, none⟩)
      (challengeUpdate (getHeader sigFn permitCap now1 s0 ⟨none, none⟩).state
        (firstRequirement resp1))
      (extractErrorResponse resp1) := by
  rw [wrappedFetchSigning]
  rw [if_neg]
  rcases h with h | h <;> simp [h]

/-- The name under which a chargeable request's payment header is
attached: the static header name in static mode, the factory config's
`paymentHeader` in signing mode (default `PAYMENT-SIGNATURE` in both). -/
def attachedHeaderName (staticHeaderName staticHeaderValue : Option String)
    (s0 : FactoryState) : String :=
  match staticHeaderValue with
  | some _ => jsOrD staticHeaderName "PAYMENT-SIGNATURE"
  | none => jsOrD s0.config.paymentHeader "PAYMENT-SIGNATURE"

/-- The header name of the retry `getHeader` is still the one configured
at call start. -/
theorem retry_headerName (sigFn : SignatureInput → SignatureOutput) (permitCap : String)
    (s0 : FactoryState) (now1 now2 : Int) (resp1 : Response) (o : GetHeaderOptions) :
    (getHeader sigFn permitCap now2
      (invalidate (challengeUpdate (getHeader sigFn permitCap now1 s0 ⟨none, none⟩).state
        (firstRequirement resp1))) o).result.headerName =
    jsOrD s0.config.paymentHeader "PAYMENT-SIGNATURE" := by
  rw [getHeader_headerName, invalidate_config, challengeUpdate_paymentHeader,
    getHeader_config]

/-- Every transport call of the signing path carries the payment header. -/
theorem wrappedFetchSigning_attaches (sigFn : SignatureInput → SignatureOutput)
    (permitCap : String) (s0 : FactoryState) (now1 now2 : Int)
    (initHeaders : List (String × String)) (resp1 resp2 : Response) :
    ∀ call ∈ (wrappedFetchSigning sigFn permitCap s0 now1 now2 initHeaders resp1 resp2).calls,
      ∃ w, getHeaderVal call.headers (jsOrD s0.config.paymentHeader "PAYMENT-SIGNATURE") =
        some w := by
  have hname1 : (getHeader sigFn permitCap now1 s0 ⟨none, none⟩).result.headerName =
      jsOrD s0.config.paymentHeader "PAYMENT-SIGNATURE" :=
    getHeader_headerName sigFn permitCap now1 s0 ⟨none, none⟩
  have hcall1 : ∃ w, getHeaderVal
      (setHeader initHeaders (getHeader sigFn permitCap now1 s0 ⟨none, none⟩).result.headerName
        (getHeader sigFn permitCap now1 s0 ⟨none, none⟩).result.headerValue)
      (jsOrD s0.config.paymentHeader "PAYMENT-SIGNATURE") = some w := by
    rw [hname1]
    exact ⟨_, getHeaderVal_setHeader _ _ _⟩
  by_cases hch : resp1.status = 401 ∨ resp1.status = 402
  · rw [wrappedFetchSigning_challenge hch]
    cases herr : extractErrorResponse resp1 with
    | none =>
      intro call hcall
      simp only [wfChallenge, List.mem_singleton] at hcall
      subst hcall
      exact hcall1
    | some e =>
      simp only [wfChallenge]
      by_cases hcls : shouldInvalidatePermit e = true
      · rw [if_pos hcls]
        intro call hcall
        simp only [List.mem_cons, List.mem_singleton, List.not_mem_nil, or_false] at hcall
        rcases hcall with hcall | hcall
        · subst hcall
          exact hcall1
        · subst hcall
          show ∃ w, getHeaderVal (setHeader initHeaders _ _) _ = some w
          rw [retry_headerName]
          exact ⟨_, getHeaderVal_setHeader _ _ _⟩
      · rw [if_neg hcls]
        intro call hcall
        simp only [List.mem_singleton] at hcall
        subst hcall
        exact hcall1
  · push_neg at hch
    rw [wrappedFetchSigning_ok hch.1 hch.2]
    intro call hcall
    simp only [List.mem_singleton] at hcall
    subst hcall
    exact hcall1

/-- Claim C5: a request whose parsed URL has an origin other than the
router's, or whose pathname ends with `/v1/config`, `/config`,
`/v1/models` or `/models`, is forwarded to the transport unchanged (same
headers, one call) and the signing function is never invoked; every other
request addressed at the router origin receives the payment header on
every transport call made for it. -/
theorem claim_C5_url_gating (routerOrigin permitCap : String)
    (staticHeaderName staticHeaderValue : Option String)
    (sigFn : SignatureInput → SignatureOutput) (s0 : FactoryState) (now1 now2 : Int)
    (url : UrlParts) (initHeaders : List (String × String)) (resp1 resp2 : Response) :
    ((¬url.origin = routerOrigin ∨ isConfigPath url.pathname = true ∨
        isModelsPath url.pathname = true) →
      wrappedFetch routerOrigin permitCap staticHeaderName staticHeaderValue sigFn s0
        now1 now2 url initHeaders resp1 resp2 =
      { response := resp1, calls := [{ headers := initHeaders }], sigInputs := [],
        finalState := s0 }) ∧
    ((url.origin = routerOrigin ∧ isConfigPath url.pathname = false ∧
        isModelsPath url.pathname = false) →
      ∀ call ∈ (wrappedFetch routerOrigin permitCap staticHeaderName staticHeaderValue sigFn
          s0 now1 now2 url initHeaders resp1 resp2).calls,
        ∃ w, getHeaderVal call.headers
          (attachedHeaderName staticHeaderName staticHeaderValue s0) = some w) := by
  constructor
  · intro h
    apply wrappedFetch_bypass
    rcases h with h | h | h
    · simp [h]
    · simp [h]
    · simp [h]
  · rintro ⟨ho, hc, hm⟩
    rw [wrappedFetch_chargeable (by simp [ho, hc, hm])]
    cases staticHeaderValue with
    | some v =>
      intro call hcall
      simp only [wrappedFetchGated, List.mem_singleton] at hcall
      subst hcall
      exact ⟨v, getHeaderVal_setHeader _ _ _⟩
    | none =>
      exact wrappedFetchSigning_attaches sigFn permitCap s0 now1 now2 initHeaders resp1 resp2

theorem claim_C5_witness :
    isConfigPath "/v1/config" = true ∧
    wrappedFetch "https://router.example.com" "1000000" none none wSigFn
        { config := wConfig, cached := none } 0 1
        { origin := "https://router.example.com", pathname := "/v1/config" }
        [("a", "b")] { status := 200, jsonBody := none, paymentRequired := none }
        { status := 200, jsonBody := none, paymentRequired := none } =
      { response := { status := 200, jsonBody := none, paymentRequired := none },
        calls := [{ headers := [("a", "b")] }], sigInputs := [],
        finalState := { config := wConfig, cached := none } } :=
  ⟨by decide,
    (claim_C5_url_gating "https://router.example.com" "1000000" none none wSigFn
      { config := wConfig, cached := none } 0 1
      { origin := "https://router.example.com", pathname := "/v1/config" }
      [("a", "b")] { status := 200, jsonBody := none, paymentRequired := none }
      { status := 200, jsonBody := none, paymentRequired := none }).1
      (Or.inr (Or.inl (by decide)))⟩

/-! ## Claim C2: retry decision -/

/-- The classification the code implements, in propositional form: exact
`code` match or case-insensitive substring match on the space-joined
`error`/`message` text, the substring match applying whether or not `code`
is present. -/
def classifiesPermitError (e : ErrorResponse) : Prop :=
  e.code = some "cap_exhausted" ∨ e.code = some "session_closed" ∨
  e.code = some "settlement_blocked" ∨
  jsIncludes (normalizeErrorText e.error e.message) "cap exhausted" = true ∨
  jsIncludes (normalizeErrorText e.error e.message) "session closed" = true ∨
  jsIncludes (normalizeErrorText e.error e.message) "settlement blocked" = true ∨
  jsIncludes (normalizeErrorText e.error e.message) "blocked after previous settlement" = true

theorem shouldInvalidatePermit_iff (e : ErrorResponse) :
    shouldInvalidatePermit e = true ↔ classifiesPermitError e := by
  rw [shouldInvalidatePermit, isCapExhausted, isSessionClosed, isSettlementBlocked,
    classifiesPermitError]
  split_ifs <;> simp_all [beq_iff_eq, Bool.or_eq_true] <;> tauto

/-- The classification exactly as claim C2 states it: exact `code` match
OR, only if `code` is absent, a case-insensitive substring match against
the concatenation of the `error` and `message` fields. Written from the
claim's words, for comparison with the code. -/
def specClaimClassifies (e : ErrorResponse) : Bool :=
  e.code == some "cap_exhausted" || e.code == some "session_closed" ||
  e.code == some "settlement_blocked" ||
  (e.code == none &&
    (jsIncludes (lowerStr ((e.error.getD "") ++ (e.message.getD ""))) "cap exhausted" ||
     jsIncludes (lowerStr ((e.error.getD "") ++ (e.message.getD ""))) "session closed" ||
     jsIncludes (lowerStr ((e.error.getD "") ++ (e.message.getD ""))) "settlement blocked" ||
     jsIncludes (lowerStr ((e.error.getD "") ++ (e.message.getD "")))
       "blocked after previous settlement"))

def cexC2Err : ErrorResponse :=
  { code := some "other", error := some "cap exhausted", message := none }

def cexC2Resp : Response :=
  { status := 402,
    jsonBody := some (JVal.jobj (some (JVal.jstr "other")) none none
      (some (JVal.jstr "cap exhausted"))),
    paymentRequired := none }

/-- Claim C2 counterexample: a 402 whose body parses to
`{code: "other", error: "cap exhausted"}` does not classify under the
claim's rule (the `code` field is present and matches none of the three),
yet the interceptor retries — two transport calls are made. -/
theorem claim_C2_counterexample :
    extractErrorResponse cexC2Resp = some cexC2Err ∧
    specClaimClassifies cexC2Err = false ∧
    (wrappedFetch "https://r.example" "1000000" none none wSigFn
      { config := wConfig, cached := none } 0 1
      { origin := "https://r.example", pathname := "/v1/chat/completions" } []
      cexC2Resp cexC2Resp).calls.length = 2 := by
  refine ⟨rfl, by decide, ?_⟩
  rw [wrappedFetch_chargeable (by decide)]
  show (wrappedFetchSigning _ _ _ _ _ _ _ _).calls.length = 2
  rw [wrappedFetchSigning_challenge (Or.inr rfl)]
  rw [show extractErrorResponse cexC2Resp = some cexC2Err from rfl]
  simp only [wfChallenge]
  rw [if_pos (by decide)]
  rfl

/-- Claim C2 (amended): on a 401/402 answer to a chargeable request, the
interceptor retries (makes a second transport call) iff signing mode is
active and the parsed error body is non-null and classifies as
`cap_exhausted`, `session_closed` or `settlement_blocked`, where
classification is by exact match on `code` OR by a case-insensitive
substring match of the four trigger phrases against the space-joined
`error`/`message` text — whether or not `code` is present. When the error
does not so classify, or static-header mode is active, the original
response is returned and only one transport call is made. -/
theorem claim_C2_retry_decision (routerOrigin permitCap : String)
    (staticHeaderName staticHeaderValue : Option String)
    (sigFn : SignatureInput → SignatureOutput) (s0 : FactoryState) (now1 now2 : Int)
    (url : UrlParts) (initHeaders : List (String × String)) (resp1 resp2 : Response)
    (hcond : (!(url.origin == routerOrigin) || isConfigPath url.pathname ||
      isModelsPath url.pathname) = false)
    (hst : resp1.status = 401 ∨ resp1.status = 402) :
    ((wrappedFetch routerOrigin permitCap staticHeaderName staticHeaderValue sigFn s0
        now1 now2 url initHeaders resp1 resp2).calls.length = 2 ↔
      staticHeaderValue = none ∧
        ∃ e, extractErrorResponse resp1 = some e ∧ classifiesPermitError e) ∧
    (¬(staticHeaderValue = none ∧
        ∃ e, extractErrorResponse resp1 = some e ∧ classifiesPermitError e) →
      (wrappedFetch routerOrigin permitCap staticHeaderName staticHeaderValue sigFn s0
        now1 now2 url initHeaders resp1 resp2).response = resp1 ∧
      (wrappedFetch routerOrigin permitCap staticHeaderName staticHeaderValue sigFn s0
        now1 now2 url initHeaders resp1 resp2).calls.length = 1) := by
  rw [wrappedFetch_chargeable hcond]
  cases staticHeaderValue with
  | some v =>
    constructor
    · constructor
      · intro habs
        exact absurd habs (by simp [wrappedFetchGated])
      · rintro ⟨hnone, -⟩
        cases hnone
    · intro h
      exact ⟨rfl, rfl⟩
  | none =>
    rw [show wrappedFetchGated permitCap staticHeaderName sigFn s0 now1 now2 initHeaders
      resp1 resp2 none = wrappedFetchSigning sigFn permitCap s0 now1 now2 initHeaders
      resp1 resp2 from rfl]
    rw [wrappedFetchSigning_challenge hst]
    cases herr : extractErrorResponse resp1 with
    | none =>
      constructor
      · constructor
        · intro habs
          exact absurd habs (by simp [wfChallenge])
        · rintro ⟨-, e2, he2, -⟩
          cases he2
      · intro h
        exact ⟨rfl, rfl⟩
    | some e =>
      simp only [wfChallenge]
      by_cases hcls : shouldInvalidatePermit e = true
      · rw [if_pos hcls]
        refine ⟨Iff.intro (fun _ => ⟨by trivial, e, rfl, (shouldInvalidatePermit_iff e).mp hcls⟩)
          (fun _ => rfl), ?_⟩
        intro h
        exact absurd ⟨by trivial, e, rfl, (shouldInvalidatePermit_iff e).mp hcls⟩ h
      · rw [if_neg hcls]
        constructor
        · constructor
          · intro habs
            exact absurd habs (by simp)
          · rintro ⟨-, e2, he2, hc2⟩
            injection he2 with he2x
            subst he2x
            exact absurd ((shouldInvalidatePermit_iff _).mpr hc2) hcls
        · intro h
          exact ⟨rfl, rfl⟩

def wC2Resp : Response :=
  { status := 402,
    jsonBody := some (JVal.jobj (some (JVal.jstr "cap_exhausted")) none none none),
    paymentRequired := none }

theorem claim_C2_witness :
    (((wrappedFetch "https://r.example" "1000000" none none wSigFn
        { config := wConfig, cached := none } 0 1
        { origin := "https://r.example", pathname := "/v1/chat/completions" } []
        wC2Resp wC2Resp).calls.length = 2 ↔
      (none : Option String) = none ∧
        ∃ e, extractErrorResponse wC2Resp = some e ∧ classifiesPermitError e) ∧
    (¬((none : Option String) = none ∧
        ∃ e, extractErrorResponse wC2Resp = some e ∧ classifiesPermitError e) →
      (wrappedFetch "https://r.example" "1000000" none none wSigFn
        { config := wConfig, cached := none } 0 1
        { origin := "https://r.example", pathname := "/v1/chat/completions" } []
        wC2Resp wC2Resp).response = wC2Resp ∧
      (wrappedFetch "https://r.example" "1000000" none none wSigFn
        { config := wConfig, cached := none } 0 1
        { origin := "https://r.example", pathname := "/v1/chat/completions" } []
        wC2Resp wC2Resp).calls.length = 1)) :=
  claim_C2_retry_decision "https://r.example" "1000000" none none wSigFn
    { config := wConfig, cached := none } 0 1
    { origin := "https://r.example", pathname := "/v1/chat/completions" } []
    wC2Resp wC2Resp (by decide) (Or.inr rfl)

/-! ## Claim C7: applying a payment requirement -/

def cexC7Config : RouterConfig :=
  { network := "eip155:8453", asset := "0x833589fCD6eDb6E08f4c7C32D4f71b54bdA02913",
    payTo := "0xaaa", facilitatorSigner := "0xbbb", tokenName := "USD Coin",
    tokenVersion := "2", paymentHeader := none }

def cexC7Req : PaymentRequirement :=
  { scheme := none, network := some "eip155:1", asset := none, amount := none,
    payTo := none, pay_to := none, extra := none }

/-- Claim C7 counterexample: a requirement that supplies no `payTo` (in
either casing) does not leave `facilitatorSigner` unchanged — the overlay
rewrites it to the config's own `payTo` when that is non-empty. -/
theorem claim_C7_counterexample :
    cexC7Req.payTo = none ∧ cexC7Req.pay_to = none ∧
    (applyPaymentRequirement cexC7Config (some cexC7Req)).facilitatorSigner =
      cexC7Config.payTo ∧
    ¬(applyPaymentRequirement cexC7Config (some cexC7Req)).facilitatorSigner =
      cexC7Config.facilitatorSigner := by
  refine ⟨rfl, rfl, rfl, ?_⟩
  decide

theorem getRequirementPayTo_ne_empty {r : PaymentRequirement} {v : String}
    (h : getRequirementPayTo (some r) = some v) : ¬v = "" := by
  rw [getRequirementPayTo] at h
  split_ifs at h with h1 h2
  · cases hx : r.payTo with
    | none => rw [hx] at h; cases h
    | some w =>
      rw [hx] at h h1
      injection h with hw
      subst hw
      simpa [strTruthy] using h1
  · cases hx : r.pay_to with
    | none => rw [hx] at h; cases h
    | some w =>
      rw [hx] at h h2
      injection h with hw
      subst hw
      simpa [strTruthy] using h2

/-- Claim C7 (amended): on a 401/402 carrying a parseable requirement in
signing mode, the factory config after the call is
`applyPaymentRequirement` of the config at call start; that overlay
replaces `network`, `asset`, `tokenName` (from `extra.name`) and
`tokenVersion` (from `extra.version`) when the requirement supplies them
non-empty and keeps them otherwise, takes `payTo` from the requirement's
`payTo` or `pay_to` (first non-empty) with the config's `payTo` as
fallback, and sets `facilitatorSigner` to that overlaid `payTo` whenever
it is non-empty — it is retained only when the overlaid `payTo` is empty. -/
theorem claim_C7_apply_requirement :
    (∀ (routerOrigin permitCap : String) (staticHeaderName : Option String)
      (sigFn : SignatureInput → SignatureOutput) (s0 : FactoryState) (now1 now2 : Int)
      (url : UrlParts) (initHeaders : List (String × String)) (resp1 resp2 : Response)
      (req : PaymentRequirement),
      (!(url.origin == routerOrigin) || isConfigPath url.pathname ||
        isModelsPath url.pathname) = false →
      (resp1.status = 401 ∨ resp1.status = 402) →
      firstRequirement resp1 = some req →
      (wrappedFetch routerOrigin permitCap staticHeaderName none sigFn s0 now1 now2
        url initHeaders resp1 resp2).finalState.config =
        applyPaymentRequirement s0.config (some req)) ∧
    (∀ (config : RouterConfig) (req : PaymentRequirement),
      ((∀ v, req.network = some v → ¬v = "" →
          (applyPaymentRequirement config (some req)).network = v) ∧
       ((req.network = none ∨ req.network = some "") →
          (applyPaymentRequirement config (some req)).network = config.network)) ∧
      ((∀ v, req.asset = some v → ¬v = "" →
          (applyPaymentRequirement config (some req)).asset = v) ∧
       ((req.asset = none ∨ req.asset = some "") →
          (applyPaymentRequirement config (some req)).asset = config.asset)) ∧
      ((∀ v, req.extra.bind (fun e => e.name) = some v → ¬v = "" →
          (applyPaymentRequirement config (some req)).tokenName = v) ∧
       ((req.extra.bind (fun e => e.name) = none ∨ req.extra.bind (fun e => e.name) = some "") →
          (applyPaymentRequirement config (some req)).tokenName = config.tokenName)) ∧
      ((∀ v, req.extra.bind (fun e => e.version) = some v → ¬v = "" →
          (applyPaymentRequirement config (some req)).tokenVersion = v) ∧
       ((req.extra.bind (fun e => e.version) = none ∨
          req.extra.bind (fun e => e.version) = some "") →
          (applyPaymentRequirement config (some req)).tokenVersion = config.tokenVersion)) ∧
      ((∀ v, getRequirementPayTo (some req) = some v →
          (applyPaymentRequirement config (some req)).payTo = v ∧
          (applyPaymentRequirement config (some req)).facilitatorSigner = v) ∧
       (getRequirementPayTo (some req) = none →
          (applyPaymentRequirement config (some req)).payTo = config.payTo ∧
          (¬config.payTo = "" →
            (applyPaymentRequirement config (some req)).facilitatorSigner = config.payTo) ∧
          (config.payTo = "" →
            (applyPaymentRequirement config (some req)).facilitatorSigner =
              config.facilitatorSigner))) ∧
      (applyPaymentRequirement config (some req)).paymentHeader = config.paymentHeader) := by
  constructor
  · intro routerOrigin permitCap staticHeaderName sigFn s0 now1 now2 url initHeaders
      resp1 resp2 req hcond hst hreq
    rw [wrappedFetch_chargeable hcond]
    rw [show wrappedFetchGated permitCap staticHeaderName sigFn s0 now1 now2 initHeaders
      resp1 resp2 none = wrappedFetchSigning sigFn permitCap s0 now1 now2 initHeaders
      resp1 resp2 from rfl]
    rw [wrappedFetchSigning_challenge hst, hreq]
    have hupdate : (challengeUpdate (getHeader sigFn permitCap now1 s0 ⟨none, none⟩).state
        (some req)).config = applyPaymentRequirement s0.config (some req) := by
      rw [show (challengeUpdate (getHeader sigFn permitCap now1 s0 ⟨none, none⟩).state
        (some req)).config = applyPaymentRequirement
          (getHeader sigFn permitCap now1 s0 ⟨none, none⟩).state.config (some req) from rfl]
      rw [getHeader_config]
    cases herr : extractErrorResponse resp1 with
    | none =>
      show (challengeUpdate _ _).config = _
      exact hupdate
    | some e =>
      simp only [wfChallenge]
      by_cases hcls : shouldInvalidatePermit e = true
      · rw [if_pos hcls]
        show (getHeader _ _ _ _ _).state.config = _
        rw [getHeader_config, invalidate_config, hupdate]
      · rw [if_neg hcls]
        show (challengeUpdate _ _).config = _
        exact hupdate
  · intro config req
    refine ⟨⟨?_, ?_⟩, ⟨?_, ?_⟩, ⟨?_, ?_⟩, ⟨?_, ?_⟩, ⟨?_, ?_⟩, rfl⟩
    · intro v hv hne
      show jsOrD req.network config.network = v
      rw [hv, jsOrD, if_neg hne]
    · intro hv
      show jsOrD req.network config.network = config.network
      rcases hv with hv | hv
      · rw [hv]
        rfl
      · rw [hv, jsOrD, if_pos rfl]
    · intro v hv hne
      show jsOrD req.asset config.asset = v
      rw [hv, jsOrD, if_neg hne]
    · intro hv
      show jsOrD req.asset config.asset = config.asset
      rcases hv with hv | hv
      · rw [hv]
        rfl
      · rw [hv, jsOrD, if_pos rfl]
    · intro v hv hne
      show jsOrD (req.extra.bind (fun e => e.name)) config.tokenName = v
      rw [hv, jsOrD, if_neg hne]
    · intro hv
      show jsOrD (req.extra.bind (fun e => e.name)) config.tokenName = config.tokenName
      rcases hv with hv | hv
      · rw [hv]
        rfl
      · rw [hv, jsOrD, if_pos rfl]
    · intro v hv hne
      show jsOrD (req.extra.bind (fun e => e.version)) config.tokenVersion = v
      rw [hv, jsOrD, if_neg hne]
    · intro hv
      show jsOrD (req.extra.bind (fun e => e.version)) config.tokenVersion = config.tokenVersion
      rcases hv with hv | hv
      · rw [hv]
        rfl
      · rw [hv, jsOrD, if_pos rfl]
    · intro v hv
      have hne := getRequirementPayTo_ne_empty hv
      constructor
      · show jsOrD (getRequirementPayTo (some req)) config.payTo = v
        rw [hv, jsOrD, if_neg hne]
      · show (if jsOrD (getRequirementPayTo (some req)) config.payTo = "" then
            config.facilitatorSigner
          else jsOrD (getRequirementPayTo (some req)) config.payTo) = v
        rw [hv, jsOrD, if_neg hne, if_neg hne]
    · intro hv
      refine ⟨?_, ?_, ?_⟩
      · show jsOrD (getRequirementPayTo (some req)) config.payTo = config.payTo
        rw [hv]
        rfl
      · intro hne
        show (if jsOrD (getRequirementPayTo (some req)) config.payTo = "" then
            config.facilitatorSigner
          else jsOrD (getRequirementPayTo (some req)) config.payTo) = config.payTo
        rw [hv]
        show (if config.payTo = "" then config.facilitatorSigner else config.payTo) =
          config.payTo
        rw [if_neg hne]
      · intro hemp
        show (if jsOrD (getRequirementPayTo (some req)) config.payTo = "" then
            config.facilitatorSigner
          else jsOrD (getRequirementPayTo (some req)) config.payTo) =
          config.facilitatorSigner
        rw [hv]
        show (if config.payTo = "" then config.facilitatorSigner else config.payTo) =
          config.facilitatorSigner
        rw [if_pos hemp]

def wC7Req : PaymentRequirement :=
  { scheme := some "upto", network := some "eip155:8453", asset := none, amount := none,
    payTo := some "0xnewpayto", pay_to := none,
    extra := some { name := some "USD Coin", version := some "2", maxAmount := none,
                    max_amount := none, maxAmountRequired := some "500000",
                    max_amount_required := none } }

def wC7Resp : Response :=
  { status := 402,
    jsonBody := some (JVal.jobj (some (JVal.jstr "cap_exhausted")) none none none),
    paymentRequired := some { accepts := some [wC7Req] } }

theorem claim_C7_witness :
    firstRequirement wC7Resp = some wC7Req ∧
    (wrappedFetch "https://r.example" "1000000" none none wSigFn
      { config := wConfig, cached := none } 0 1
      { origin := "https://r.example", pathname := "/v1/chat/completions" } []
      wC7Resp wC7Resp).finalState.config =
      applyPaymentRequirement wConfig (some wC7Req) :=
  ⟨rfl, claim_C7_apply_requirement.1 "https://r.example" "1000000" none wSigFn
    { config := wConfig, cached := none } 0 1
    { origin := "https://r.example", pathname := "/v1/chat/completions" } []
    wC7Resp wC7Resp wC7Req (by decide) (Or.inr rfl) rfl⟩

/-! ## Claim C3: exactly one retry with server cap and a later deadline -/

/-- Cache well-formedness: any cached value is an encoded payload whose
`validBefore` is the cached deadline. It holds for a fresh factory
(`cached = none`) and is maintained by every `getHeader`. -/
def CacheWellFormed (s : FactoryState) : Prop :=
  ∀ c, s.cached = some c → ∃ p, c.value = encodePaymentPayload p ∧
    p.payload.authorization.validBefore = toString c.deadline

/-- The contract of a signing function (met by the `env_pk` signer,
claim C6): a requested `minDeadlineExclusive` is strictly exceeded. -/
def DeadlineContract (sigFn : SignatureInput → SignatureOutput) : Prop :=
  ∀ input m, input.minDeadlineExclusive = some m → m < (sigFn input).deadline

/-- The attached header of any `getHeader` call decodes to a payload whose
`validBefore` is the returned deadline. -/
theorem getHeader_decode (sigFn : SignatureInput → SignatureOutput) (permitCap : String)
    (now : Int) (s : FactoryState) (o : GetHeaderOptions) (hwf : CacheWellFormed s) :
    ∃ p, decodePaymentPayload (getHeader sigFn permitCap now s o).result.headerValue =
        some p ∧
      p.payload.authorization.validBefore =
        toString (getHeader sigFn permitCap now s o).result.deadline := by
  rw [getHeader]
  cases hc : s.cached with
  | none => exact ⟨_, decode_encodePaymentPayload _, rfl⟩
  | some c =>
    simp only [getHeaderAux]
    split
    · obtain ⟨p, hv, hvb⟩ := hwf c hc
      refine ⟨p, ?_, ?_⟩
      · show decodePaymentPayload c.value = some p
        rw [hv]
        exact decode_encodePaymentPayload p
      · exact hvb
    · exact ⟨_, decode_encodePaymentPayload _, rfl⟩

/-- The retry arm of the challenge handler. -/
theorem wfChallenge_retry {sigFn : SignatureInput → SignatureOutput} {permitCap : String}
    {now2 : Int} {initHeaders : List (String × String)} {resp1 resp2 : Response}
    {call1 : TransportCall} {g1 : GetHeaderOut} {s2 : FactoryState} {e : ErrorResponse}
    (hcls : shouldInvalidatePermit e = true) :
    wfChallenge sigFn permitCap now2 initHeaders resp1 resp2 call1 g1 s2 (some e) =
    { response := resp2,
      calls := [call1, TransportCall.mk (setHeader initHeaders
        (getHeader sigFn permitCap now2 (invalidate s2)
          ⟨getRequirementMaxAmountRequired (firstRequirement resp1),
            some g1.result.deadline⟩).result.headerName
        (getHeader sigFn permitCap now2 (invalidate s2)
          ⟨getRequirementMaxAmountRequired (firstRequirement resp1),
            some g1.result.deadline⟩).result.headerValue)],
      sigInputs := g1.sigCall.toList ++
        (getHeader sigFn permitCap now2 (invalidate s2)
          ⟨getRequirementMaxAmountRequired (firstRequirement resp1),
            some g1.result.deadline⟩).sigCall.toList,
      finalState := (getHeader sigFn permitCap now2 (invalidate s2)
        ⟨getRequirementMaxAmountRequired (firstRequirement resp1),
          some g1.result.deadline⟩).state } := by
  simp only [wfChallenge]
  rw [if_pos hcls]

/-- Claim C3: a classifiable 401/402 carrying a requirement, in signing
mode, produces exactly two transport calls; the retry response is returned
even if it also fails; the single retry signs with the server cap
extracted from the first requirement (in the order `extra.maxAmountRequired`,
`extra.max_amount_required`, `extra.maxAmount`, `extra.max_amount`,
`amount`, first non-empty; falling back to the configured cap) and with
the first attempt's deadline as `minDeadlineExclusive`; and — provided the
signing function honours its deadline contract — the second attached
`validBefore` is strictly greater than the first's. -/
theorem claim_C3_single_retry (routerOrigin permitCap : String)
    (staticHeaderName : Option String) (sigFn : SignatureInput → SignatureOutput)
    (s0 : FactoryState) (now1 now2 : Int) (url : UrlParts)
    (initHeaders : List (String × String)) (resp1 resp2 : Response)
    (e : ErrorResponse) (req : PaymentRequirement)
    (hcond : (!(url.origin == routerOrigin) || isConfigPath url.pathname ||
      isModelsPath url.pathname) = false)
    (hst : resp1.status = 401 ∨ resp1.status = 402)
    (herr : extractErrorResponse resp1 = some e)
    (hcls : shouldInvalidatePermit e = true)
    (hreq : firstRequirement resp1 = some req)
    (hwf : CacheWellFormed s0)
    (hdc : DeadlineContract sigFn) :
    (wrappedFetch routerOrigin permitCap staticHeaderName none sigFn s0 now1 now2 url
      initHeaders resp1 resp2).response = resp2 ∧
    ∃ call1 call2,
      (wrappedFetch routerOrigin permitCap staticHeaderName none sigFn s0 now1 now2 url
        initHeaders resp1 resp2).calls = [call1, call2] ∧
      ∃ i2, (wrappedFetch routerOrigin permitCap staticHeaderName none sigFn s0 now1 now2 url
          initHeaders resp1 resp2).sigInputs.getLast? = some i2 ∧
        i2.permitCap = jsOrD (getRequirementMaxAmountRequired (some req)) permitCap ∧
        ∃ d1, i2.minDeadlineExclusive = some d1 ∧
          (∃ v1 p1, getHeaderVal call1.headers
              (jsOrD s0.config.paymentHeader "PAYMENT-SIGNATURE") = some v1 ∧
            decodePaymentPayload v1 = some p1 ∧
            p1.payload.authorization.validBefore = toString d1) ∧
          (∃ v2 p2 d2, getHeaderVal call2.headers
              (jsOrD s0.config.paymentHeader "PAYMENT-SIGNATURE") = some v2 ∧
            decodePaymentPayload v2 = some p2 ∧
            p2.payload.authorization.validBefore = toString d2 ∧ d1 < d2) := by
  rw [wrappedFetch_chargeable hcond]
  rw [show wrappedFetchGated permitCap staticHeaderName sigFn s0 now1 now2 initHeaders
    resp1 resp2 none = wrappedFetchSigning sigFn permitCap s0 now1 now2 initHeaders
    resp1 resp2 from rfl]
  rw [wrappedFetchSigning_challenge hst, herr, wfChallenge_retry hcls]
  have hg2 : getHeader sigFn permitCap now2
      (invalidate (challengeUpdate (getHeader sigFn permitCap now1 s0 ⟨none, none⟩).state
        (firstRequirement resp1)))
      ⟨getRequirementMaxAmountRequired (firstRequirement resp1),
        some (getHeader sigFn permitCap now1 s0 ⟨none, none⟩).result.deadline⟩ =
      signFresh sigFn
        (invalidate (challengeUpdate (getHeader sigFn permitCap now1 s0 ⟨none, none⟩).state
          (firstRequirement resp1)))
        ⟨getRequirementMaxAmountRequired (firstRequirement resp1),
          some (getHeader sigFn permitCap now1 s0 ⟨none, none⟩).result.deadline⟩
        (jsOrD (getRequirementMaxAmountRequired (firstRequirement resp1)) permitCap) :=
    getHeader_miss_forced rfl
  refine ⟨rfl, ?_⟩
  refine ⟨TransportCall.mk (setHeader initHeaders (getHeader sigFn permitCap now1 s0 ⟨none, none⟩).result.headerName (getHeader sigFn permitCap now1 s0 ⟨none, none⟩).result.headerValue), TransportCall.mk (setHeader initHeaders (getHeader sigFn permitCap now2 (invalidate (challengeUpdate (getHeader sigFn permitCap now1 s0 ⟨none, none⟩).state (firstRequirement resp1))) ⟨getRequirementMaxAmountRequired (firstRequirement resp1), some (getHeader sigFn permitCap now1 s0 ⟨none, none⟩).result.deadline⟩).result.headerName (getHeader sigFn permitCap now2 (invalidate (challengeUpdate (getHeader sigFn permitCap now1 s0 ⟨none, none⟩).state (firstRequirement resp1))) ⟨getRequirementMaxAmountRequired (firstRequirement resp1), some (getHeader sigFn permitCap now1 s0 ⟨none, none⟩).result.deadline⟩).result.headerValue), rfl, ?_⟩
  refine ⟨{ network := (invalidate (challengeUpdate (getHeader sigFn permitCap now1 s0 ⟨none, none⟩).state (firstRequirement resp1))).config.network, asset := (invalidate (challengeUpdate (getHeader sigFn permitCap now1 s0 ⟨none, none⟩).state (firstRequirement resp1))).config.asset, payTo := (invalidate (challengeUpdate (getHeader sigFn permitCap now1 s0 ⟨none, none⟩).state (firstRequirement resp1))).config.payTo, facilitatorSigner := (invalidate (challengeUpdate (getHeader sigFn permitCap now1 s0 ⟨none, none⟩).state (firstRequirement resp1))).config.facilitatorSigner, tokenName := (invalidate (challengeUpdate (getHeader sigFn permitCap now1 s0 ⟨none, none⟩).state (firstRequirement resp1))).config.tokenName, tokenVersion := (invalidate (challengeUpdate (getHeader sigFn permitCap now1 s0 ⟨none, none⟩).state (firstRequirement resp1))).config.tokenVersion, permitCap := jsOrD (getRequirementMaxAmountRequired (firstRequirement resp1)) permitCap, minDeadlineExclusive := some (getHeader sigFn permitCap now1 s0 ⟨none, none⟩).result.deadline }, ?_, ?_, ?_⟩
  · rw [hg2, signFresh_sigCall]
    exact List.getLast?_concat _
  · show jsOrD (getRequirementMaxAmountRequired (firstRequirement resp1)) permitCap =
      jsOrD (getRequirementMaxAmountRequired (some req)) permitCap
    rw [hreq]
  refine ⟨(getHeader sigFn permitCap now1 s0 ⟨none, none⟩).result.deadline, rfl, ?_, ?_⟩
  · obtain ⟨p1, hdec1, hvb1⟩ :=
      getHeader_decode sigFn permitCap now1 s0 ⟨none, none⟩ hwf
    refine ⟨(getHeader sigFn permitCap now1 s0 ⟨none, none⟩).result.headerValue, p1, ?_,
      hdec1, hvb1⟩
    rw [getHeader_headerName]
    exact getHeaderVal_setHeader _ _ _
  · refine ⟨(getHeader sigFn permitCap now2
        (invalidate (challengeUpdate (getHeader sigFn permitCap now1 s0 ⟨none, none⟩).state
          (firstRequirement resp1)))
        ⟨getRequirementMaxAmountRequired (firstRequirement resp1),
          some (getHeader sigFn permitCap now1 s0 ⟨none, none⟩).result.deadline⟩).result.headerValue,
      (buildPaymentPayload (invalidate (challengeUpdate (getHeader sigFn permitCap now1 s0 ⟨none, none⟩).state (firstRequirement resp1))).config (sigFn ({ network := (invalidate (challengeUpdate (getHeader sigFn permitCap now1 s0 ⟨none, none⟩).state (firstRequirement resp1))).config.network, asset := (invalidate (challengeUpdate (getHeader sigFn permitCap now1 s0 ⟨none, none⟩).state (firstRequirement resp1))).config.asset, payTo := (invalidate (challengeUpdate (getHeader sigFn permitCap now1 s0 ⟨none, none⟩).state (firstRequirement resp1))).config.payTo, facilitatorSigner := (invalidate (challengeUpdate (getHeader sigFn permitCap now1 s0 ⟨none, none⟩).state (firstRequirement resp1))).config.facilitatorSigner, tokenName := (invalidate (challengeUpdate (getHeader sigFn permitCap now1 s0 ⟨none, none⟩).state (firstRequirement resp1))).config.tokenName, tokenVersion := (invalidate (challengeUpdate (getHeader sigFn permitCap now1 s0 ⟨none, none⟩).state (firstRequirement resp1))).config.tokenVersion, permitCap := jsOrD (getRequirementMaxAmountRequired (firstRequirement resp1)) permitCap, minDeadlineExclusive := some (getHeader sigFn permitCap now1 s0 ⟨none, none⟩).result.deadline } : SignatureInput)).accountAddress (jsOrD (getRequirementMaxAmountRequired (firstRequirement resp1)) permitCap) (sigFn ({ network := (invalidate (challengeUpdate (getHeader sigFn permitCap now1 s0 ⟨none, none⟩).state (firstRequirement resp1))).config.network, asset := (invalidate (challengeUpdate (getHeader sigFn permitCap now1 s0 ⟨none, none⟩).state (firstRequirement resp1))).config.asset, payTo := (invalidate (challengeUpdate (getHeader sigFn permitCap now1 s0 ⟨none, none⟩).state (firstRequirement resp1))).config.payTo, facilitatorSigner := (invalidate (challengeUpdate (getHeader sigFn permitCap now1 s0 ⟨none, none⟩).state (firstRequirement resp1))).config.facilitatorSigner, tokenName := (invalidate (challengeUpdate (getHeader sigFn permitCap now1 s0 ⟨none, none⟩).state (firstRequirement resp1))).config.tokenName, tokenVersion := (invalidate (challengeUpdate (getHeader sigFn permitCap now1 s0 ⟨none, none⟩).state (firstRequirement resp1))).config.tokenVersion, permitCap := jsOrD (getRequirementMaxAmountRequired (firstRequirement resp1)) permitCap, minDeadlineExclusive := some (getHeader sigFn permitCap now1 s0 ⟨none, none⟩).result.deadline } : SignatureInput)).signature (sigFn ({ network := (invalidate (challengeUpdate (getHeader sigFn permitCap now1 s0 ⟨none, none⟩).state (firstRequirement resp1))).config.network, asset := (invalidate (challengeUpdate (getHeader sigFn permitCap now1 s0 ⟨none, none⟩).state (firstRequirement resp1))).config.asset, payTo := (invalidate (challengeUpdate (getHeader sigFn permitCap now1 s0 ⟨none, none⟩).state (firstRequirement resp1))).config.payTo, facilitatorSigner := (invalidate (challengeUpdate (getHeader sigFn permitCap now1 s0 ⟨none, none⟩).state (firstRequirement resp1))).config.facilitatorSigner, tokenName := (invalidate (challengeUpdate (getHeader sigFn permitCap now1 s0 ⟨none, none⟩).state (firstRequirement resp1))).config.tokenName, tokenVersion := (invalidate (challengeUpdate (getHeader sigFn permitCap now1 s0 ⟨none, none⟩).state (firstRequirement resp1))).config.tokenVersion, permitCap := jsOrD (getRequirementMaxAmountRequired (firstRequirement resp1)) permitCap, minDeadlineExclusive := some (getHeader sigFn permitCap now1 s0 ⟨none, none⟩).result.deadline } : SignatureInput)).nonce (toString (sigFn ({ network := (invalidate (challengeUpdate (getHeader sigFn permitCap now1 s0 ⟨none, none⟩).state (firstRequirement resp1))).config.network, asset := (invalidate (challengeUpdate (getHeader sigFn permitCap now1 s0 ⟨none, none⟩).state (firstRequirement resp1))).config.asset, payTo := (invalidate (challengeUpdate (getHeader sigFn permitCap now1 s0 ⟨none, none⟩).state (firstRequirement resp1))).config.payTo, facilitatorSigner := (invalidate (challengeUpdate (getHeader sigFn permitCap now1 s0 ⟨none, none⟩).state (firstRequirement resp1))).config.facilitatorSigner, tokenName := (invalidate (challengeUpdate (getHeader sigFn permitCap now1 s0 ⟨none, none⟩).state (firstRequirement resp1))).config.tokenName, tokenVersion := (invalidate (challengeUpdate (getHeader sigFn permitCap now1 s0 ⟨none, none⟩).state (firstRequirement resp1))).config.tokenVersion, permitCap := jsOrD (getRequirementMaxAmountRequired (firstRequirement resp1)) permitCap, minDeadlineExclusive := some (getHeader sigFn permitCap now1 s0 ⟨none, none⟩).result.deadline } : SignatureInput)).deadline)), ((sigFn ({ network := (invalidate (challengeUpdate (getHeader sigFn permitCap now1 s0 ⟨none, none⟩).state (firstRequirement resp1))).config.network, asset := (invalidate (challengeUpdate (getHeader sigFn permitCap now1 s0 ⟨none, none⟩).state (firstRequirement resp1))).config.asset, payTo := (invalidate (challengeUpdate (getHeader sigFn permitCap now1 s0 ⟨none, none⟩).state (firstRequirement resp1))).config.payTo, facilitatorSigner := (invalidate (challengeUpdate (getHeader sigFn permitCap now1 s0 ⟨none, none⟩).state (firstRequirement resp1))).config.facilitatorSigner, tokenName := (invalidate (challengeUpdate (getHeader sigFn permitCap now1 s0 ⟨none, none⟩).state (firstRequirement resp1))).config.tokenName, tokenVersion := (invalidate (challengeUpdate (getHeader sigFn permitCap now1 s0 ⟨none, none⟩).state (firstRequirement resp1))).config.tokenVersion, permitCap := jsOrD (getRequirementMaxAmountRequired (firstRequirement resp1)) permitCap, minDeadlineExclusive := some (getHeader sigFn permitCap now1 s0 ⟨none, none⟩).result.deadline } : SignatureInput)).deadline), ?_, ?_, ?_, ?_⟩
    · rw [retry_headerName]
      exact getHeaderVal_setHeader _ _ _
    · rw [hg2]
      exact decode_encodePaymentPayload _
    · rfl
    · exact hdc _ _ rfl

theorem wSigFn_contract : DeadlineContract wSigFn := by
  intro input m h
  simp only [wSigFn, h]
  omega

def wC3Req : PaymentRequirement :=
  { scheme := some "upto", network := some "eip155:8453", asset := none, amount := none,
    payTo := none, pay_to := none,
    extra := some { name := none, version := none, maxAmount := none,
                    max_amount := none, maxAmountRequired := some "500000",
                    max_amount_required := none } }

def wC3Resp : Response :=
  { status := 402,
    jsonBody := some (JVal.jobj (some (JVal.jstr "cap_exhausted")) none none none),
    paymentRequired := some { accepts := some [wC3Req] } }

def wC3Err : ErrorResponse :=
  { code := some "cap_exhausted", error := none, message := none }

def wC3Resp2 : Response := { status := 200, jsonBody := none, paymentRequired := none }

def wC3Url : UrlParts :=
  { origin := "https://r.example", pathname := "/v1/chat/completions" }

def wC3State : FactoryState := { config := wConfig, cached := none }

theorem claim_C3_witness :
    (wrappedFetch "https://r.example" "1000000" none none wSigFn wC3State 0 1 wC3Url
      [] wC3Resp wC3Resp2).response = wC3Resp2 ∧
    ∃ call1 call2,
      (wrappedFetch "https://r.example" "1000000" none none wSigFn wC3State 0 1 wC3Url
        [] wC3Resp wC3Resp2).calls = [call1, call2] ∧
      ∃ i2, (wrappedFetch "https://r.example" "1000000" none none wSigFn wC3State 0 1 wC3Url
          [] wC3Resp wC3Resp2).sigInputs.getLast? = some i2 ∧
        i2.permitCap = jsOrD (getRequirementMaxAmountRequired (some wC3Req)) "1000000" ∧
        ∃ d1, i2.minDeadlineExclusive = some d1 ∧
          (∃ v1 p1, getHeaderVal call1.headers
              (jsOrD wC3State.config.paymentHeader "PAYMENT-SIGNATURE") = some v1 ∧
            decodePaymentPayload v1 = some p1 ∧
            p1.payload.authorization.validBefore = toString d1) ∧
          (∃ v2 p2 d2, getHeaderVal call2.headers
              (jsOrD wC3State.config.paymentHeader "PAYMENT-SIGNATURE") = some v2 ∧
            decodePaymentPayload v2 = some p2 ∧
            p2.payload.authorization.validBefore = toString d2 ∧ d1 < d2) :=
  claim_C3_single_retry "https://r.example" "1000000" none wSigFn wC3State 0 1 wC3Url
    [] wC3Resp wC3Resp2 wC3Err wC3Req (by decide) (Or.inr rfl) rfl (by decide) rfl
    (by intro c hc; exact Option.noConfusion hc) wSigFn_contract
